import Mathlib

/-!
Shallow embedding of the jvmb class-file decoder (Rust sources:
constantpool.rs, attribute.rs, classfile.rs, fieldinfo.rs, methodinfo.rs)
and proofs about the claims of the specification.

Modelling conventions:
 - a byte buffer is a List Nat of values below 256; the nom cursor is
   modelled by returning the unconsumed suffix of the input list;
 - a nom error (for example UnexpectedEof or a tag mismatch), which the
   Rust code returns to its caller as an Err value, is PRes.err;
 - a process abort -- the unimplemented macro, Option or Result unwrap on
   a failure value, or an arithmetic underflow check of a debug build --
   is PRes.panic, distinguished from PRes.err;
 - mutually recursive parsers carry a fuel argument; PRes.outOfFuel is the
   artifact outcome that a sufficiently large fuel never produces;
 - the f32 and f64 payloads of Float and Double pool entries are carried
   as their raw big-endian bit patterns (a Nat), since the decoder never
   computes with them; i32 and i64 payloads use two-complement Int values.
-/

abbrev Bytes := List Nat

/-- Result of a parser that also returns the unconsumed rest of the input. -/
inductive PRes (α : Type) where
  | ok (val : α) (rest : Bytes)
  | err
  | panic
  | outOfFuel

/-- Result of an operation that does not return a rest (Rust functions
returning Result of a value, with the leftover discarded). -/
inductive DRes (α : Type) where
  | ok (val : α)
  | err
  | panic
  | outOfFuel

/-- Sequencing of a parse result into the next parser, propagating the
error, panic and out-of-fuel outcomes (the question-mark operator of Rust
plus panic propagation). -/
def pseq {α β : Type} (r : PRes α) (f : α → Bytes → PRes β) : PRes β :=
  match r with
  | .ok a rest => f a rest
  | .err => .err
  | .panic => .panic
  | .outOfFuel => .outOfFuel

/-- nom u8: consume one byte. -/
def readU8 : Bytes → PRes Nat
  | b :: r => .ok b r
  | _ => .err

/-- nom be_u16: consume two bytes, big endian. -/
def readU16 : Bytes → PRes Nat
  | a :: b :: r => .ok (a * 256 + b) r
  | _ => .err

/-- nom be_u32: consume four bytes, big endian. -/
def readU32 : Bytes → PRes Nat
  | a :: b :: c :: d :: r => .ok (a * 16777216 + b * 65536 + c * 256 + d) r
  | _ => .err

/-- nom be_u64: consume eight bytes, big endian. -/
def readU64 : Bytes → PRes Nat
  | a :: b :: c :: d :: e :: f :: g :: h :: r =>
      .ok (a * 72057594037927936 + b * 281474976710656 + c * 1099511627776
           + d * 4294967296 + e * 16777216 + f * 65536 + g * 256 + h) r
  | _ => .err

/-- nom take(n): consume exactly n bytes. -/
def takeN (n : Nat) (buf : Bytes) : PRes Bytes :=
  if n ≤ buf.length then .ok (buf.take n) (buf.drop n) else .err

/-- Two-complement reading of a 32-bit pattern, for nom be_i32. -/
def toI32 (n : Nat) : Int :=
  if n < 2147483648 then (n : Int) else (n : Int) - 4294967296

/-- Two-complement reading of a 64-bit pattern, for nom be_i64. -/
def toI64 (n : Nat) : Int :=
  if n < 9223372036854775808 then (n : Int) else (n : Int) - 18446744073709551616

/-- nom count(p, n): run the parser p exactly n times and collect the
results in order. -/
def parseCount {α : Type} (p : Bytes → PRes α) : Nat → Bytes → PRes (List α)
  | 0, buf => .ok [] buf
  | n + 1, buf =>
    pseq (p buf) fun a buf =>
    pseq (parseCount p n buf) fun tail buf =>
    .ok (a :: tail) buf

/-- Validity of a byte sequence under standard UTF-8, exactly the check
performed by the Rust standard library function from_utf8 (the table of
the WHATWG encoding standard). -/
def utf8Valid : Bytes → Bool
  | [] => true
  | b :: rest =>
    if b ≤ 0x7F then utf8Valid rest
    else if 0xC2 ≤ b ∧ b ≤ 0xDF then
      match rest with
      | c :: r2 => if 0x80 ≤ c ∧ c ≤ 0xBF then utf8Valid r2 else false
      | _ => false
    else if b = 0xE0 then
      match rest with
      | c :: d :: r2 =>
        if (0xA0 ≤ c ∧ c ≤ 0xBF) ∧ (0x80 ≤ d ∧ d ≤ 0xBF) then utf8Valid r2 else false
      | _ => false
    else if (0xE1 ≤ b ∧ b ≤ 0xEC) ∨ (0xEE ≤ b ∧ b ≤ 0xEF) then
      match rest with
      | c :: d :: r2 =>
        if (0x80 ≤ c ∧ c ≤ 0xBF) ∧ (0x80 ≤ d ∧ d ≤ 0xBF) then utf8Valid r2 else false
      | _ => false
    else if b = 0xED then
      match rest with
      | c :: d :: r2 =>
        if (0x80 ≤ c ∧ c ≤ 0x9F) ∧ (0x80 ≤ d ∧ d ≤ 0xBF) then utf8Valid r2 else false
      | _ => false
    else if b = 0xF0 then
      match rest with
      | c :: d :: e :: r2 =>
        if (0x90 ≤ c ∧ c ≤ 0xBF) ∧ (0x80 ≤ d ∧ d ≤ 0xBF) ∧ (0x80 ≤ e ∧ e ≤ 0xBF) then
          utf8Valid r2
        else false
      | _ => false
    else if 0xF1 ≤ b ∧ b ≤ 0xF3 then
      match rest with
      | c :: d :: e :: r2 =>
        if (0x80 ≤ c ∧ c ≤ 0xBF) ∧ (0x80 ≤ d ∧ d ≤ 0xBF) ∧ (0x80 ≤ e ∧ e ≤ 0xBF) then
          utf8Valid r2
        else false
      | _ => false
    else if b = 0xF4 then
      match rest with
      | c :: d :: e :: r2 =>
        if (0x80 ≤ c ∧ c ≤ 0x8F) ∧ (0x80 ≤ d ∧ d ≤ 0xBF) ∧ (0x80 ≤ e ∧ e ≤ 0xBF) then
          utf8Valid r2
        else false
      | _ => false
    else false

/-- Modelled from the spec: validity of a byte sequence under Modified
UTF-8 as defined by the JVM specification and the glossary of the spec
(the NUL byte is two-byte encoded, so a 0x00 byte never appears; code
points use one-byte 0x01-0x7F, two-byte 0xC0-0xDF 0x80-0xBF, and
three-byte 0xE0-0xEF 0x80-0xBF 0x80-0xBF groups; supplementary planes
appear as surrogate pairs of three-byte groups, so no four-byte group
exists). This definition follows the words of the spec and is used only
to compare the spec against the decoder, which is not written from it. -/
def isValidModifiedUtf8 : Bytes → Bool
  | [] => true
  | b :: rest =>
    if 0x01 ≤ b ∧ b ≤ 0x7F then isValidModifiedUtf8 rest
    else if 0xC0 ≤ b ∧ b ≤ 0xDF then
      match rest with
      | c :: r2 => if 0x80 ≤ c ∧ c ≤ 0xBF then isValidModifiedUtf8 r2 else false
      | _ => false
    else if 0xE0 ≤ b ∧ b ≤ 0xEF then
      match rest with
      | c :: d :: r2 =>
        if (0x80 ≤ c ∧ c ≤ 0xBF) ∧ (0x80 ≤ d ∧ d ≤ 0xBF) then
          isValidModifiedUtf8 r2
        else false
      | _ => false
    else false

/-- Byte sequence of an ASCII string literal, used for the attribute name
table (for ASCII names this equals the UTF-8 encoding, so comparing byte
sequences agrees with the string comparison performed by the Rust code). -/
def asciiBytes (s : String) : Bytes := s.toList.map Char.toNat

/-- The constant pool entry type of constantpool.rs (enum ConstantPool).
UTF8 carries the raw validated bytes; Float and Double carry raw bit
patterns; Integer and Long carry two-complement values. -/
inductive ConstantPool where
  | Class (name_index : Nat)
  | FieldRef (class_index name_and_type_index : Nat)
  | MethodRef (class_index name_and_type_index : Nat)
  | InterfaceMethodRef (class_index name_and_type_index : Nat)
  | String (string_index : Nat)
  | Integer (value : Int)
  | Float (bits : Nat)
  | Long (value : Int)
  | Double (bits : Nat)
  | NameAndType (name_index descriptor_index : Nat)
  | UTF8 (bytes : Bytes)
  | MethodHandle (reference_kind reference_index : Nat)
  | MethodType (descriptor_index : Nat)
  | Dynamic (bootstrap_method_attr_index name_and_type_index : Nat)
  | InvokeDynamic (bootstrap_method_attr_index name_and_type_index : Nat)
  | Module (name_index : Nat)
  | Package (name_index : Nat)

/-- ConstantPool::parse_constant: one tagged entry. The tag constants are
those of constantpool.rs, tested in the order of the Rust match arms. An
unknown tag hits the unimplemented macro, an abort. A UTF8 entry whose
bytes fail the standard UTF-8 check aborts through unwrap on from_utf8. -/
def ConstantPool.parse_constant (buf : Bytes) : PRes ConstantPool :=
  pseq (readU8 buf) fun tag buf =>
  if tag = 7 then
    pseq (readU16 buf) fun name_index buf =>
    .ok (ConstantPool.Class name_index) buf
  else if tag = 9 then
    pseq (readU16 buf) fun class_index buf =>
    pseq (readU16 buf) fun name_and_type_index buf =>
    .ok (ConstantPool.FieldRef class_index name_and_type_index) buf
  else if tag = 10 then
    pseq (readU16 buf) fun class_index buf =>
    pseq (readU16 buf) fun name_and_type_index buf =>
    .ok (ConstantPool.MethodRef class_index name_and_type_index) buf
  else if tag = 11 then
    pseq (readU16 buf) fun class_index buf =>
    pseq (readU16 buf) fun name_and_type_index buf =>
    .ok (ConstantPool.InterfaceMethodRef class_index name_and_type_index) buf
  else if tag = 8 then
    pseq (readU16 buf) fun string_index buf =>
    .ok (ConstantPool.String string_index) buf
  else if tag = 3 then
    pseq (readU32 buf) fun value buf =>
    .ok (ConstantPool.Integer (toI32 value)) buf
  else if tag = 4 then
    pseq (readU32 buf) fun bits buf =>
    .ok (ConstantPool.Float bits) buf
  else if tag = 5 then
    pseq (readU64 buf) fun value buf =>
    .ok (ConstantPool.Long (toI64 value)) buf
  else if tag = 6 then
    pseq (readU64 buf) fun bits buf =>
    .ok (ConstantPool.Double bits) buf
  else if tag = 12 then
    pseq (readU16 buf) fun name_index buf =>
    pseq (readU16 buf) fun descriptor_index buf =>
    .ok (ConstantPool.NameAndType name_index descriptor_index) buf
  else if tag = 1 then
    pseq (readU16 buf) fun len buf =>
    pseq (takeN len buf) fun value buf =>
    -- String::from_utf8(value.to_vec()).unwrap(): standard UTF-8 check,
    -- with an abort when it fails
    if utf8Valid value then .ok (ConstantPool.UTF8 value) buf else .panic
  else if tag = 15 then
    pseq (readU8 buf) fun reference_kind buf =>
    pseq (readU16 buf) fun reference_index buf =>
    .ok (ConstantPool.MethodHandle reference_kind reference_index) buf
  else if tag = 16 then
    pseq (readU16 buf) fun descriptor_index buf =>
    .ok (ConstantPool.MethodType descriptor_index) buf
  else if tag = 17 then
    pseq (readU16 buf) fun bootstrap_method_attr_index buf =>
    pseq (readU16 buf) fun name_and_type_index buf =>
    .ok (ConstantPool.Dynamic bootstrap_method_attr_index name_and_type_index) buf
  else if tag = 18 then
    pseq (readU16 buf) fun bootstrap_method_attr_index buf =>
    pseq (readU16 buf) fun name_and_type_index buf =>
    .ok (ConstantPool.InvokeDynamic bootstrap_method_attr_index name_and_type_index) buf
  else if tag = 19 then
    pseq (readU16 buf) fun name_index buf =>
    .ok (ConstantPool.Module name_index) buf
  else if tag = 20 then
    pseq (readU16 buf) fun name_index buf =>
    .ok (ConstantPool.Package name_index) buf
  else .panic

/-- True for the entries after which the loop in ConstantPool::parse adds
an extra increment to its slot counter: the source tests for Long and
then for Float (not Double). -/
def ConstantPool.sourceExtraSlot : ConstantPool → Bool
  | ConstantPool.Long _ => true
  | ConstantPool.Float _ => true
  | _ => false

mutual
/-- The while loop of ConstantPool::parse. The first argument is the
number of logical slots still to fill (count minus 1 minus i); an entry
for which sourceExtraSlot holds consumes two slots through parseLoopWide,
possibly overshooting the target by one. -/
def ConstantPool.parseLoop : Nat → Bytes → PRes (List ConstantPool)
  | 0, buf => .ok [] buf
  | Nat.succ r, buf =>
    pseq (ConstantPool.parse_constant buf) fun c rest =>
    pseq (if ConstantPool.sourceExtraSlot c then ConstantPool.parseLoopWide r rest
          else ConstantPool.parseLoop r rest) fun tail rest2 =>
    .ok (c :: tail) rest2

/-- Continuation of the loop after an entry that consumed two logical
slots: the counter i advanced by two, so one further slot is taken off
the remaining target; when only one slot remained, i overshoots the
target and the loop stops. -/
def ConstantPool.parseLoopWide : Nat → Bytes → PRes (List ConstantPool)
  | 0, rest => .ok [] rest
  | Nat.succ r2, rest => ConstantPool.parseLoop r2 rest
end

/-- ConstantPool::parse. A declared count of zero aborts: the Rust code
computes constant_pool_count - 1 with usize arithmetic, which underflows
in a debug build. -/
def ConstantPool.parse (buf : Bytes) (constant_pool_count : Nat) : PRes (List ConstantPool) :=
  if constant_pool_count = 0 then .panic
  else ConstantPool.parseLoop (constant_pool_count - 1) buf

/-- The verification type info variants of attribute.rs. -/
inductive VerificationTypeInfo where
  | TopVariableInfo
  | IntegerVariableInfo
  | FloatVariableInfo
  | NullVariableInfo
  | UninitializedThisVariableInfo
  | ObjectVariableInfo (cpool_index : Nat)
  | UninitializedVariableInfo (offset : Nat)
  | LongVariableInfo
  | DoubleVariableInfo

/-- VerificationTypeInfo::parse: one-byte tag 0 to 8; any other tag hits
the unimplemented macro, an abort. -/
def VerificationTypeInfo.parse (buf : Bytes) : PRes VerificationTypeInfo :=
  pseq (readU8 buf) fun tag buf =>
  if tag = 0 then .ok VerificationTypeInfo.TopVariableInfo buf
  else if tag = 1 then .ok VerificationTypeInfo.IntegerVariableInfo buf
  else if tag = 2 then .ok VerificationTypeInfo.FloatVariableInfo buf
  else if tag = 3 then .ok VerificationTypeInfo.DoubleVariableInfo buf
  else if tag = 4 then .ok VerificationTypeInfo.LongVariableInfo buf
  else if tag = 5 then .ok VerificationTypeInfo.NullVariableInfo buf
  else if tag = 6 then .ok VerificationTypeInfo.UninitializedThisVariableInfo buf
  else if tag = 7 then
    pseq (readU16 buf) fun cpool_index buf =>
    .ok (VerificationTypeInfo.ObjectVariableInfo cpool_index) buf
  else if tag = 8 then
    pseq (readU16 buf) fun offset buf =>
    .ok (VerificationTypeInfo.UninitializedVariableInfo offset) buf
  else .panic

/-- The stack map frame variants of attribute.rs. -/
inductive StackMapFrame where
  | SameFrame
  | SameLocals1StackItemFrame (v : VerificationTypeInfo)
  | SameLocals1StackItemFrameExtended (offset_delta : Nat) (v : VerificationTypeInfo)
  | ChopFrame (offset_delta : Nat)
  | SameFrameExtended (offset_delta : Nat)
  | AppendFrame (offset_delta : Nat) (locals : List VerificationTypeInfo)
  | FullFrame (offset_delta number_of_locals : Nat)
      (locals : List VerificationTypeInfo)
      (number_of_stack_items : Nat)
      (stack : List VerificationTypeInfo)

/-- StackMapFrame::parse, with the arms in the order of the Rust match.
The guard arm of the source accepts the whole range 242 to 254; since the
arms for 247, 248 to 250 and 251 come first, the guard arm receives 242
to 246 and 252 to 254, and computes the locals count as the tag minus 251
in usize arithmetic, which underflows for a tag below 251: in a debug
build that is an abort, modelled as panic. Any tag not covered by an arm
hits the unimplemented macro, an abort. -/
def StackMapFrame.parse (buf : Bytes) : PRes StackMapFrame :=
  pseq (readU8 buf) fun frame_type buf =>
  if frame_type ≤ 63 then .ok StackMapFrame.SameFrame buf
  else if 64 ≤ frame_type ∧ frame_type ≤ 127 then
    pseq (VerificationTypeInfo.parse buf) fun verification_type_info buf =>
    .ok (StackMapFrame.SameLocals1StackItemFrame verification_type_info) buf
  else if frame_type = 247 then
    pseq (readU16 buf) fun offset_delta buf =>
    pseq (VerificationTypeInfo.parse buf) fun verification_type_info buf =>
    .ok (StackMapFrame.SameLocals1StackItemFrameExtended offset_delta verification_type_info) buf
  else if 248 ≤ frame_type ∧ frame_type ≤ 250 then
    pseq (readU16 buf) fun offset_delta buf =>
    .ok (StackMapFrame.ChopFrame offset_delta) buf
  else if frame_type = 251 then
    pseq (readU16 buf) fun offset_delta buf =>
    .ok (StackMapFrame.SameFrameExtended offset_delta) buf
  else if 242 ≤ frame_type ∧ frame_type ≤ 254 then
    if frame_type < 251 then .panic
    else
      pseq (readU16 buf) fun offset_delta buf =>
      pseq (parseCount VerificationTypeInfo.parse (frame_type - 251) buf) fun locals buf =>
      .ok (StackMapFrame.AppendFrame offset_delta locals) buf
  else if frame_type = 255 then
    pseq (readU16 buf) fun offset_delta buf =>
    pseq (readU16 buf) fun number_of_locals buf =>
    pseq (parseCount VerificationTypeInfo.parse number_of_locals buf) fun locals buf =>
    pseq (readU16 buf) fun number_of_stack_items buf =>
    pseq (parseCount VerificationTypeInfo.parse number_of_stack_items buf) fun stack buf =>
    .ok (StackMapFrame.FullFrame offset_delta number_of_locals locals number_of_stack_items stack) buf
  else .panic

/-- The StackMapTable attribute body. -/
structure StackMapTable where
  entries : List StackMapFrame

/-- StackMapTable::parse. -/
def StackMapTable.parse (buf : Bytes) : PRes StackMapTable :=
  pseq (readU16 buf) fun number_of_entries buf =>
  pseq (parseCount StackMapFrame.parse number_of_entries buf) fun entries buf =>
  .ok (StackMapTable.mk entries) buf

/-- One exception table record of a Code attribute. -/
structure Exception where
  start_pc : Nat
  end_pc : Nat
  handler_pc : Nat
  catch_type : Nat

/-- Exception::parse: four 16-bit fields. -/
def Exception.parse (buf : Bytes) : PRes Exception :=
  pseq (readU16 buf) fun start_pc buf =>
  pseq (readU16 buf) fun end_pc buf =>
  pseq (readU16 buf) fun handler_pc buf =>
  pseq (readU16 buf) fun catch_type buf =>
  .ok (Exception.mk start_pc end_pc handler_pc catch_type) buf

/-- The Exceptions attribute body. -/
structure Exceptions where
  exception_index_table : List Nat

/-- Exceptions::parse. -/
def Exceptions.parse (buf : Bytes) : PRes Exceptions :=
  pseq (readU16 buf) fun number_of_exceptions buf =>
  pseq (parseCount readU16 number_of_exceptions buf) fun exception_index_table buf =>
  .ok (Exceptions.mk exception_index_table) buf

/-- One InnerClasses record. -/
structure InnerClass where
  inner_class_info_index : Nat
  outer_class_info_index : Nat
  inner_name_index : Nat
  inner_class_access_flags : Nat

/-- InnerClass::parse. -/
def InnerClass.parse (buf : Bytes) : PRes InnerClass :=
  pseq (readU16 buf) fun inner_class_info_index buf =>
  pseq (readU16 buf) fun outer_class_info_index buf =>
  pseq (readU16 buf) fun inner_name_index buf =>
  pseq (readU16 buf) fun inner_class_access_flags buf =>
  .ok (InnerClass.mk inner_class_info_index outer_class_info_index
        inner_name_index inner_class_access_flags) buf

/-- The InnerClasses attribute body. -/
structure InnerClasses where
  classes : List InnerClass

/-- InnerClasses::parse. -/
def InnerClasses.parse (buf : Bytes) : PRes InnerClasses :=
  pseq (readU16 buf) fun number_of_classes buf =>
  pseq (parseCount InnerClass.parse number_of_classes buf) fun classes buf =>
  .ok (InnerClasses.mk classes) buf

/-- The EnclosingMethod attribute body. -/
structure EnclosingMethod where
  class_index : Nat
  method_index : Nat

/-- EnclosingMethod::parse. -/
def EnclosingMethod.parse (buf : Bytes) : PRes EnclosingMethod :=
  pseq (readU16 buf) fun class_index buf =>
  pseq (readU16 buf) fun method_index buf =>
  .ok (EnclosingMethod.mk class_index method_index) buf

/-- The Signature attribute body. -/
structure Signature where
  signature_index : Nat

/-- Signature::parse. -/
def Signature.parse (buf : Bytes) : PRes Signature :=
  pseq (readU16 buf) fun signature_index buf =>
  .ok (Signature.mk signature_index) buf

/-- The SourceFile attribute body. -/
structure SourceFile where
  sourcefile_index : Nat

/-- SourceFile::parse. -/
def SourceFile.parse (buf : Bytes) : PRes SourceFile :=
  pseq (readU16 buf) fun sourcefile_index buf =>
  .ok (SourceFile.mk sourcefile_index) buf

/-- One LineNumberTable record. -/
structure LineNumber where
  start_pc : Nat
  line_number : Nat

/-- LineNumber::parse. -/
def LineNumber.parse (buf : Bytes) : PRes LineNumber :=
  pseq (readU16 buf) fun start_pc buf =>
  pseq (readU16 buf) fun line_number buf =>
  .ok (LineNumber.mk start_pc line_number) buf

/-- One LocalVariableTable record. -/
structure LocalVariable where
  start_pc : Nat
  length : Nat
  name_index : Nat
  descriptor_index : Nat
  index : Nat

/-- LocalVariable::parse. -/
def LocalVariable.parse (buf : Bytes) : PRes LocalVariable :=
  pseq (readU16 buf) fun start_pc buf =>
  pseq (readU16 buf) fun length buf =>
  pseq (readU16 buf) fun name_index buf =>
  pseq (readU16 buf) fun descriptor_index buf =>
  pseq (readU16 buf) fun index buf =>
  .ok (LocalVariable.mk start_pc length name_index descriptor_index index) buf

/-- One LocalVariableTypeTable record. -/
structure LocalVariableType where
  start_pc : Nat
  length : Nat
  name_index : Nat
  signature_index : Nat
  index : Nat

/-- LocalVariableType::parse. -/
def LocalVariableType.parse (buf : Bytes) : PRes LocalVariableType :=
  pseq (readU16 buf) fun start_pc buf =>
  pseq (readU16 buf) fun length buf =>
  pseq (readU16 buf) fun name_index buf =>
  pseq (readU16 buf) fun signature_index buf =>
  pseq (readU16 buf) fun index buf =>
  .ok (LocalVariableType.mk start_pc length name_index signature_index index) buf

mutual
/-- The annotation record of attribute.rs (Rust struct named like the
JVM annotation structure; shortened here to Annot). -/
inductive Annot where
  | mk (type_index : Nat) (element_value_pairs : List (Nat × ElementValue))
/-- The element value variants of attribute.rs. -/
inductive ElementValue where
  | ConstValue (const_value_index : Nat)
  | EnumConstValue (type_name_index const_name_index : Nat)
  | ClassInfoIndex (class_info_index : Nat)
  | AnnotationValue (a : Annot)
  | ArrayValue (values : List ElementValue)
end

/-- Projection for the type index of an annotation record. -/
def Annot.type_index : Annot → Nat
  | .mk t _ => t

/-- Projection for the element value pairs of an annotation record. -/
def Annot.element_value_pairs : Annot → List (Nat × ElementValue)
  | .mk _ p => p

mutual
/-- Annotation::parse of attribute.rs: u16 type index, u16 pair count,
then that many pairs of u16 element name index and element value. -/
def Annot.parse : Nat → Bytes → PRes Annot
  | 0, _ => .outOfFuel
  | fuel + 1, buf =>
    pseq (readU16 buf) fun type_index buf =>
    pseq (readU16 buf) fun num_element_value_pairs buf =>
    pseq (evPairsLoop fuel num_element_value_pairs buf) fun element_value_pairs buf =>
    .ok (Annot.mk type_index element_value_pairs) buf

/-- The pair reading loop shared by Annotation::parse and
TypeAnnotation::parse in attribute.rs (both sources inline the same
loop). -/
def evPairsLoop : Nat → Nat → Bytes → PRes (List (Nat × ElementValue))
  | 0, _, _ => .outOfFuel
  | _ + 1, 0, buf => .ok [] buf
  | fuel + 1, n + 1, buf =>
    pseq (readU16 buf) fun element_name_index buf =>
    pseq (ElementValue.parse fuel buf) fun element_value buf =>
    pseq (evPairsLoop fuel n buf) fun tail buf =>
    .ok ((element_name_index, element_value) :: tail) buf

/-- ElementValue::parse of attribute.rs: one ASCII tag byte dispatches;
the nine primitive or string tags share one arm; an unknown tag hits the
unimplemented macro, an abort. -/
def ElementValue.parse : Nat → Bytes → PRes ElementValue
  | 0, _ => .outOfFuel
  | fuel + 1, buf =>
    pseq (readU8 buf) fun tag buf =>
    if tag = 0x42 ∨ tag = 0x43 ∨ tag = 0x44 ∨ tag = 0x46 ∨ tag = 0x49
        ∨ tag = 0x4A ∨ tag = 0x53 ∨ tag = 0x5A ∨ tag = 0x73 then
      pseq (readU16 buf) fun const_value_index buf =>
      .ok (ElementValue.ConstValue const_value_index) buf
    else if tag = 0x65 then
      pseq (readU16 buf) fun type_name_index buf =>
      pseq (readU16 buf) fun const_name_index buf =>
      .ok (ElementValue.EnumConstValue type_name_index const_name_index) buf
    else if tag = 0x63 then
      pseq (readU16 buf) fun class_info_index buf =>
      .ok (ElementValue.ClassInfoIndex class_info_index) buf
    else if tag = 0x40 then
      pseq (Annot.parse fuel buf) fun a buf =>
      .ok (ElementValue.AnnotationValue a) buf
    else if tag = 0x5B then
      pseq (readU16 buf) fun num_values buf =>
      pseq (evArrayLoop fuel num_values buf) fun values buf =>
      .ok (ElementValue.ArrayValue values) buf
    else .panic

/-- The nom count over ElementValue::parse used by the array arm. -/
def evArrayLoop : Nat → Nat → Bytes → PRes (List ElementValue)
  | 0, _, _ => .outOfFuel
  | _ + 1, 0, buf => .ok [] buf
  | fuel + 1, n + 1, buf =>
    pseq (ElementValue.parse fuel buf) fun v buf =>
    pseq (evArrayLoop fuel n buf) fun tail buf =>
    .ok (v :: tail) buf
end

/-- One parameter annotation record (Rust struct shortened here to
ParameterAnnot). -/
structure ParameterAnnot where
  annotations : List Annot

/-- ParameterAnnotation::parse. -/
def ParameterAnnot.parse (fuel : Nat) (buf : Bytes) : PRes ParameterAnnot :=
  pseq (readU16 buf) fun num_annotations buf =>
  pseq (parseCount (Annot.parse fuel) num_annotations buf) fun annotations buf =>
  .ok (ParameterAnnot.mk annotations) buf

/-- One record of a local variable target table. -/
structure LocalVar where
  start_pc : Nat
  length : Nat
  index : Nat

/-- LocalVar::parse. -/
def LocalVar.parse (buf : Bytes) : PRes LocalVar :=
  pseq (readU16 buf) fun start_pc buf =>
  pseq (readU16 buf) fun length buf =>
  pseq (readU16 buf) fun index buf =>
  .ok (LocalVar.mk start_pc length index) buf

/-- The target info variants of attribute.rs. -/
inductive TargetInfo where
  | TypeParameter (type_parameter_index : Nat)
  | SuperType (supertype_index : Nat)
  | TypeParameterBound (type_parameter_index bound_index : Nat)
  | Empty
  | FormalParameter (formal_parameter_index : Nat)
  | Throws (throws_type_index : Nat)
  | LocalVarTarget (table : List LocalVar)
  | Catch (exception_table_index : Nat)
  | Offset (offset : Nat)
  | TypeArgument (offset : Nat) (type_argument_index : Nat)

/-- TargetInfo::parse of attribute.rs, dispatching on the target type
byte with the arms in source order; an unknown target type hits the
unimplemented macro, an abort. -/
def TargetInfo.parse (buf : Bytes) (target_type : Nat) : PRes TargetInfo :=
  if target_type = 0 ∨ target_type = 1 then
    pseq (readU8 buf) fun type_parameter_index buf =>
    .ok (TargetInfo.TypeParameter type_parameter_index) buf
  else if target_type = 0x10 then
    pseq (readU16 buf) fun supertype_index buf =>
    .ok (TargetInfo.SuperType supertype_index) buf
  else if target_type = 0x11 ∨ target_type = 0x12 then
    pseq (readU8 buf) fun type_parameter_index buf =>
    pseq (readU8 buf) fun bound_index buf =>
    .ok (TargetInfo.TypeParameterBound type_parameter_index bound_index) buf
  else if target_type = 0x13 ∨ target_type = 0x14 ∨ target_type = 0x15 then
    .ok TargetInfo.Empty buf
  else if target_type = 0x16 then
    pseq (readU8 buf) fun formal_parameter_index buf =>
    .ok (TargetInfo.FormalParameter formal_parameter_index) buf
  else if target_type = 0x17 then
    pseq (readU16 buf) fun throws_type_index buf =>
    .ok (TargetInfo.Throws throws_type_index) buf
  else if target_type = 0x40 ∨ target_type = 0x41 then
    pseq (readU16 buf) fun table_length buf =>
    pseq (parseCount LocalVar.parse table_length buf) fun table buf =>
    .ok (TargetInfo.LocalVarTarget table) buf
  else if target_type = 0x42 then
    pseq (readU16 buf) fun exception_table_index buf =>
    .ok (TargetInfo.Catch exception_table_index) buf
  else if target_type = 0x43 ∨ target_type = 0x44 ∨ target_type = 0x45 ∨ target_type = 0x46 then
    pseq (readU16 buf) fun offset buf =>
    .ok (TargetInfo.Offset offset) buf
  else if target_type = 0x47 ∨ target_type = 0x48 ∨ target_type = 0x49
      ∨ target_type = 0x4A ∨ target_type = 0x4B then
    pseq (readU16 buf) fun offset buf =>
    pseq (readU8 buf) fun type_argument_index buf =>
    .ok (TargetInfo.TypeArgument offset type_argument_index) buf
  else .panic

/-- One type path step (the Rust struct is named Path; the Lean name avoids the Mathlib type of the same name). -/
structure PathStep where
  type_path_kind : Nat
  type_argument_index : Nat

/-- Path::parse. -/
def PathStep.parse (buf : Bytes) : PRes PathStep :=
  pseq (readU8 buf) fun type_path_kind buf =>
  pseq (readU8 buf) fun type_argument_index buf =>
  .ok (PathStep.mk type_path_kind type_argument_index) buf

/-- The type path of a type annotation. -/
structure TypePath where
  path : List PathStep

/-- TypePath::parse: u8 length then that many two-byte steps. -/
def TypePath.parse (buf : Bytes) : PRes TypePath :=
  pseq (readU8 buf) fun path_length buf =>
  pseq (parseCount PathStep.parse path_length buf) fun path buf =>
  .ok (TypePath.mk path) buf

/-- One type annotation record (Rust struct shortened here to TypeAnnot). -/
structure TypeAnnot where
  target_type : Nat
  target_info : TargetInfo
  target_path : TypePath
  type_index : Nat
  element_value_pairs : List (Nat × ElementValue)

/-- TypeAnnotation::parse of attribute.rs: u8 target type, its target
info, the type path, u16 type index, then the element value pair loop. -/
def TypeAnnot.parse (fuel : Nat) (buf : Bytes) : PRes TypeAnnot :=
  pseq (readU8 buf) fun target_type buf =>
  pseq (TargetInfo.parse buf target_type) fun target_info buf =>
  pseq (TypePath.parse buf) fun target_path buf =>
  pseq (readU16 buf) fun type_index buf =>
  pseq (readU16 buf) fun num_element_value_pairs buf =>
  pseq (evPairsLoop fuel num_element_value_pairs buf) fun element_value_pairs buf =>
  .ok (TypeAnnot.mk target_type target_info target_path type_index element_value_pairs) buf

/-- One bootstrap method record. -/
structure BootstrapMethod where
  bootstrap_method_ref : Nat
  bootstrap_arguments : List Nat

/-- BootstrapMethod::parse. -/
def BootstrapMethod.parse (buf : Bytes) : PRes BootstrapMethod :=
  pseq (readU16 buf) fun bootstrap_method_ref buf =>
  pseq (readU16 buf) fun num_bootstrap_arguments buf =>
  pseq (parseCount readU16 num_bootstrap_arguments buf) fun bootstrap_arguments buf =>
  .ok (BootstrapMethod.mk bootstrap_method_ref bootstrap_arguments) buf

/-- One method parameter record. -/
structure Parameter where
  name_index : Nat
  access_flags : Nat

/-- Parameter::parse. -/
def Parameter.parse (buf : Bytes) : PRes Parameter :=
  pseq (readU16 buf) fun name_index buf =>
  pseq (readU16 buf) fun access_flags buf =>
  .ok (Parameter.mk name_index access_flags) buf

/-- One requires record of a Module attribute. -/
structure Requires where
  requires_index : Nat
  requires_flags : Nat
  requires_version_index : Nat

/-- Requires::parse. -/
def Requires.parse (buf : Bytes) : PRes Requires :=
  pseq (readU16 buf) fun requires_index buf =>
  pseq (readU16 buf) fun requires_flags buf =>
  pseq (readU16 buf) fun requires_version_index buf =>
  .ok (Requires.mk requires_index requires_flags requires_version_index) buf

/-- One exports record of a Module attribute. -/
structure Exports where
  exports_index : Nat
  exports_flags : Nat
  exports_to_index : List Nat

/-- Exports::parse. -/
def Exports.parse (buf : Bytes) : PRes Exports :=
  pseq (readU16 buf) fun exports_index buf =>
  pseq (readU16 buf) fun exports_flags buf =>
  pseq (readU16 buf) fun exports_to_count buf =>
  pseq (parseCount readU16 exports_to_count buf) fun exports_to_index buf =>
  .ok (Exports.mk exports_index exports_flags exports_to_index) buf

/-- One opens record of a Module attribute. -/
structure Opens where
  opens_index : Nat
  opens_flags : Nat
  opens_to_index : List Nat

/-- Opens::parse. -/
def Opens.parse (buf : Bytes) : PRes Opens :=
  pseq (readU16 buf) fun opens_index buf =>
  pseq (readU16 buf) fun opens_flags buf =>
  pseq (readU16 buf) fun opens_to_count buf =>
  pseq (parseCount readU16 opens_to_count buf) fun opens_to_index buf =>
  .ok (Opens.mk opens_index opens_flags opens_to_index) buf

/-- One provides record of a Module attribute. -/
structure Provides where
  provides_index : Nat
  provides_with_index : List Nat

/-- Provides::parse. -/
def Provides.parse (buf : Bytes) : PRes Provides :=
  pseq (readU16 buf) fun provides_index buf =>
  pseq (readU16 buf) fun provides_to_count buf =>
  pseq (parseCount readU16 provides_to_count buf) fun provides_with_index buf =>
  .ok (Provides.mk provides_index provides_with_index) buf

/-- The Module attribute body. -/
structure ModuleAttribute where
  module_name_index : Nat
  module_flags : Nat
  module_version_index : Nat
  requires : List Requires
  exports : List Exports
  opens : List Opens
  uses : List Nat
  provides : List Provides

/-- Module::parse of attribute.rs (the Rust struct is named Module; the
Lean name avoids the builtin Module). -/
def ModuleAttribute.parse (buf : Bytes) : PRes ModuleAttribute :=
  pseq (readU16 buf) fun module_name_index buf =>
  pseq (readU16 buf) fun module_flags buf =>
  pseq (readU16 buf) fun module_version_index buf =>
  pseq (readU16 buf) fun requires_count buf =>
  pseq (parseCount Requires.parse requires_count buf) fun requires buf =>
  pseq (readU16 buf) fun exports_count buf =>
  pseq (parseCount Exports.parse exports_count buf) fun exports buf =>
  pseq (readU16 buf) fun opens_count buf =>
  pseq (parseCount Opens.parse opens_count buf) fun opens buf =>
  pseq (readU16 buf) fun uses_count buf =>
  pseq (parseCount readU16 uses_count buf) fun uses buf =>
  pseq (readU16 buf) fun provides_count buf =>
  pseq (parseCount Provides.parse provides_count buf) fun provides buf =>
  .ok (ModuleAttribute.mk module_name_index module_flags module_version_index
        requires exports opens uses provides) buf

/-- The raw attribute envelope of attribute.rs (struct AttributeInfo). -/
structure AttributeInfo where
  attribute_name_index : Nat
  attribute_length : Nat
  info : Bytes

/-- AttributeInfo::parse: u16 name index, u32 length, then exactly that
many raw bytes. -/
def AttributeInfo.parse (buf : Bytes) : PRes AttributeInfo :=
  pseq (readU16 buf) fun attribute_name_index buf =>
  pseq (readU32 buf) fun attribute_length buf =>
  pseq (takeN attribute_length buf) fun info buf =>
  .ok (AttributeInfo.mk attribute_name_index attribute_length info) buf

mutual
/-- The typed attribute variants of attribute.rs (enum Attribute). -/
inductive Attribute where
  | ConstantValue (constantvalue_index : Nat)
  | Code (c : Code)
  | StackMapTable (t : StackMapTable)
  | Exceptions (e : Exceptions)
  | InnerClasses (i : InnerClasses)
  | EnclosingMethod (e : EnclosingMethod)
  | Synthetic
  | Signature (s : Signature)
  | SourceFile (s : SourceFile)
  | SourceDebugExtension (bytes : Bytes)
  | LineNumberTable (t : List LineNumber)
  | LocalVariableTable (t : List LocalVariable)
  | LocalVariableTypeTable (t : List LocalVariableType)
  | Deprecated
  | RuntimeVisibleAnnotations (a : List Annot)
  | RuntimeInvisibleAnnotations (a : List Annot)
  | RuntimeVisibleParameterAnnotations (a : List ParameterAnnot)
  | RuntimeInvisibleParameterAnnotations (a : List ParameterAnnot)
  | RuntimeVisibleTypeAnnotations (a : List TypeAnnot)
  | RuntimeInvisibleTypeAnnotations (a : List TypeAnnot)
  | AnnotationDefault (default_value : ElementValue)
  | BootstrapMethods (b : List BootstrapMethod)
  | MethodParameters (p : List Parameter)
  | Module (m : ModuleAttribute)
  | ModulePackages (package_index : List Nat)
  | ModuleMainClass (main_class_index : Nat)
  | NestHost (host_class_index : Nat)
  | NestMembers (classes : List Nat)
  | Record (components : List RecordComponentInfo)
  | PermittedSubclasses (classes : List Nat)

/-- The Code attribute body of attribute.rs (struct Code). -/
inductive Code where
  | mk (max_stack max_locals code_length : Nat) (code : Bytes)
      (exception_table_length : Nat) (exception_table : List Exception)
      (attributes_count : Nat) (attributes : List Attribute)

/-- One record component of the Record attribute. -/
inductive RecordComponentInfo where
  | mk (name_index descriptor_index : Nat) (attributes : List Attribute)
end

/-- Projection: the max_stack field of a Code body. -/
def Code.max_stack : Code → Nat
  | .mk v _ _ _ _ _ _ _ => v

/-- Projection: the max_locals field of a Code body. -/
def Code.max_locals : Code → Nat
  | .mk _ v _ _ _ _ _ _ => v

/-- Projection: the code_length field of a Code body. -/
def Code.code_length : Code → Nat
  | .mk _ _ v _ _ _ _ _ => v

/-- Projection: the code bytes of a Code body. -/
def Code.code : Code → Bytes
  | .mk _ _ _ v _ _ _ _ => v

/-- Projection: the exception_table_length field of a Code body. -/
def Code.exception_table_length : Code → Nat
  | .mk _ _ _ _ v _ _ _ => v

/-- Projection: the exception table of a Code body. -/
def Code.exception_table : Code → List Exception
  | .mk _ _ _ _ _ v _ _ => v

/-- Projection: the attributes_count field of a Code body. -/
def Code.attributes_count : Code → Nat
  | .mk _ _ _ _ _ _ v _ => v

/-- Projection: the nested attributes of a Code body. -/
def Code.attributes : Code → List Attribute
  | .mk _ _ _ _ _ _ _ v => v

/-- Conversion discarding the unconsumed rest, as the Rust match arms do
with the pattern (_, value); the constructor f is applied to the value. -/
def discardRest {α β : Type} (r : PRes α) (f : α → β) : DRes β :=
  match r with
  | .ok v _ => .ok (f v)
  | .err => .err
  | .panic => .panic
  | .outOfFuel => .outOfFuel

mutual
/-- Attribute::parse of attribute.rs. The name index is dereferenced as
stored position (index minus 1) with no translation through the slots of
wide entries; index 0 underflows the usize subtraction (a debug build
abort), a position beyond the stored table aborts through unwrap, and a
non-UTF8 entry hits the unimplemented macro. The name match arms follow
the source order; an unmatched name hits the unimplemented macro. -/
def Attribute.parse : Nat → Nat → Bytes → List ConstantPool → DRes Attribute
  | 0, _, _, _ => .outOfFuel
  | fuel + 1, attribute_name_index, info, constant_pool =>
    if attribute_name_index = 0 then .panic
    else
      match constant_pool[attribute_name_index - 1]? with
      | none => .panic
      | some (ConstantPool.UTF8 name) =>
        if name = asciiBytes "ConstantValue" then
          discardRest (readU16 info) Attribute.ConstantValue
        else if name = asciiBytes "Code" then
          discardRest (Code.parse fuel info constant_pool) Attribute.Code
        else if name = asciiBytes "StackMapTable" then
          discardRest (StackMapTable.parse info) Attribute.StackMapTable
        else if name = asciiBytes "Exceptions" then
          discardRest (Exceptions.parse info) Attribute.Exceptions
        else if name = asciiBytes "InnerClasses" then
          discardRest (InnerClasses.parse info) Attribute.InnerClasses
        else if name = asciiBytes "EnclosingMethod" then
          discardRest (EnclosingMethod.parse info) Attribute.EnclosingMethod
        else if name = asciiBytes "Synthetic" then
          .ok Attribute.Synthetic
        else if name = asciiBytes "Signature" then
          discardRest (Signature.parse info) Attribute.Signature
        else if name = asciiBytes "SourceFile" then
          discardRest (SourceFile.parse info) Attribute.SourceFile
        else if name = asciiBytes "SourceDebugExtension" then
          -- String::from_utf8(info.to_vec()).unwrap()
          if utf8Valid info then .ok (Attribute.SourceDebugExtension info) else .panic
        else if name = asciiBytes "LineNumberTable" then
          discardRest
            (pseq (readU16 info) fun n buf => parseCount LineNumber.parse n buf)
            Attribute.LineNumberTable
        else if name = asciiBytes "LocalVariableTable" then
          discardRest
            (pseq (readU16 info) fun n buf => parseCount LocalVariable.parse n buf)
            Attribute.LocalVariableTable
        else if name = asciiBytes "LocalVariableTypeTable" then
          discardRest
            (pseq (readU16 info) fun n buf => parseCount LocalVariableType.parse n buf)
            Attribute.LocalVariableTypeTable
        else if name = asciiBytes "Deprecated" then
          .ok Attribute.Deprecated
        else if name = asciiBytes "RuntimeVisibleAnnotations" then
          discardRest
            (pseq (readU16 info) fun n buf => parseCount (Annot.parse fuel) n buf)
            Attribute.RuntimeVisibleAnnotations
        else if name = asciiBytes "RuntimeInvisibleAnnotations" then
          discardRest
            (pseq (readU16 info) fun n buf => parseCount (Annot.parse fuel) n buf)
            Attribute.RuntimeInvisibleAnnotations
        else if name = asciiBytes "RuntimeVisibleParameterAnnotations" then
          discardRest
            (pseq (readU8 info) fun n buf => parseCount (ParameterAnnot.parse fuel) n buf)
            Attribute.RuntimeVisibleParameterAnnotations
        else if name = asciiBytes "RuntimeInvisibleParameterAnnotations" then
          discardRest
            (pseq (readU8 info) fun n buf => parseCount (ParameterAnnot.parse fuel) n buf)
            Attribute.RuntimeInvisibleParameterAnnotations
        else if name = asciiBytes "RuntimeVisibleTypeAnnotations" then
          discardRest
            (pseq (readU16 info) fun n buf => parseCount (TypeAnnot.parse fuel) n buf)
            Attribute.RuntimeVisibleTypeAnnotations
        else if name = asciiBytes "RuntimeInvisibleTypeAnnotations" then
          discardRest
            (pseq (readU16 info) fun n buf => parseCount (TypeAnnot.parse fuel) n buf)
            Attribute.RuntimeInvisibleTypeAnnotations
        else if name = asciiBytes "AnnotationDefault" then
          discardRest (ElementValue.parse fuel info) Attribute.AnnotationDefault
        else if name = asciiBytes "BootstrapMethods" then
          discardRest
            (pseq (readU16 info) fun n buf => parseCount BootstrapMethod.parse n buf)
            Attribute.BootstrapMethods
        else if name = asciiBytes "MethodParameters" then
          discardRest
            (pseq (readU8 info) fun n buf => parseCount Parameter.parse n buf)
            Attribute.MethodParameters
        else if name = asciiBytes "Module" then
          discardRest (ModuleAttribute.parse info) Attribute.Module
        else if name = asciiBytes "ModulePackages" then
          discardRest
            (pseq (readU16 info) fun n buf => parseCount readU16 n buf)
            Attribute.ModulePackages
        else if name = asciiBytes "ModuleMainClass" then
          discardRest (readU16 info) Attribute.ModuleMainClass
        else if name = asciiBytes "NestHost" then
          discardRest (readU16 info) Attribute.NestHost
        else if name = asciiBytes "NestMembers" then
          discardRest
            (pseq (readU16 info) fun n buf => parseCount readU16 n buf)
            Attribute.NestMembers
        else if name = asciiBytes "RecordComponentInfo" then
          -- the source dispatches the Record attribute under this name
          discardRest
            (pseq (readU16 info) fun n buf => recordComponentsLoop fuel n buf constant_pool)
            Attribute.Record
        else if name = asciiBytes "PermittedSubclasses" then
          discardRest
            (pseq (readU16 info) fun n buf => parseCount readU16 n buf)
            Attribute.PermittedSubclasses
        else .panic
      | some _ => .panic

/-- Attribute::from_attribute_info of attribute.rs: promote each raw
envelope through Attribute::parse; the Rust code unwraps each result, so
an Err from the dispatcher is an abort here. -/
def Attribute.from_attribute_info : Nat → List AttributeInfo → List ConstantPool → DRes (List Attribute)
  | 0, _, _ => .outOfFuel
  | _ + 1, [], _ => .ok []
  | fuel + 1, attr :: rest, constant_pool =>
    match Attribute.parse fuel attr.attribute_name_index attr.info constant_pool with
    | .ok a =>
      match Attribute.from_attribute_info fuel rest constant_pool with
      | .ok tail => .ok (a :: tail)
      | .err => .err
      | .panic => .panic
      | .outOfFuel => .outOfFuel
    | .err => .panic
    | .panic => .panic
    | .outOfFuel => .outOfFuel

/-- Code::parse of attribute.rs: max_stack, max_locals, code_length,
exactly code_length raw code bytes, the exception table, then the nested
attribute envelopes promoted through the dispatcher. -/
def Code.parse : Nat → Bytes → List ConstantPool → PRes Code
  | 0, _, _ => .outOfFuel
  | fuel + 1, buf, constant_pool =>
    pseq (readU16 buf) fun max_stack buf =>
    pseq (readU16 buf) fun max_locals buf =>
    pseq (readU32 buf) fun code_length buf =>
    pseq (takeN code_length buf) fun code buf =>
    pseq (readU16 buf) fun exception_table_length buf =>
    pseq (parseCount Exception.parse exception_table_length buf) fun exception_table buf =>
    pseq (readU16 buf) fun attributes_count buf =>
    pseq (parseCount AttributeInfo.parse attributes_count buf) fun attrInfos buf =>
    match Attribute.from_attribute_info fuel attrInfos constant_pool with
    | .ok attributes =>
      .ok (Code.mk max_stack max_locals code_length code exception_table_length
            exception_table attributes_count attributes) buf
    | .err => .err
    | .panic => .panic
    | .outOfFuel => .outOfFuel

/-- RecordComponentInfo::parse of attribute.rs. -/
def RecordComponentInfo.parse : Nat → Bytes → List ConstantPool → PRes RecordComponentInfo
  | 0, _, _ => .outOfFuel
  | fuel + 1, buf, constant_pool =>
    pseq (readU16 buf) fun name_index buf =>
    pseq (readU16 buf) fun descriptor_index buf =>
    pseq (readU16 buf) fun attributes_count buf =>
    pseq (parseCount AttributeInfo.parse attributes_count buf) fun attrInfos buf =>
    match Attribute.from_attribute_info fuel attrInfos constant_pool with
    | .ok attributes =>
      .ok (RecordComponentInfo.mk name_index descriptor_index attributes) buf
    | .err => .err
    | .panic => .panic
    | .outOfFuel => .outOfFuel

/-- The component reading for loop of the Record dispatch arm. -/
def recordComponentsLoop : Nat → Nat → Bytes → List ConstantPool → PRes (List RecordComponentInfo)
  | 0, _, _, _ => .outOfFuel
  | _ + 1, 0, buf, _ => .ok [] buf
  | fuel + 1, n + 1, buf, constant_pool =>
    pseq (RecordComponentInfo.parse fuel buf constant_pool) fun component buf =>
    pseq (recordComponentsLoop fuel n buf constant_pool) fun tail buf =>
    .ok (component :: tail) buf
end

/-- One field record of fieldinfo.rs. -/
structure FieldInfo where
  access_flags : Nat
  name_index : Nat
  descriptor_index : Nat
  attributes_count : Nat
  attributes : List Attribute

/-- FieldInfo::parse_field_info. -/
def FieldInfo.parse_field_info (fuel : Nat) (buf : Bytes) (constant_pool : List ConstantPool) :
    PRes FieldInfo :=
  pseq (readU16 buf) fun access_flags buf =>
  pseq (readU16 buf) fun name_index buf =>
  pseq (readU16 buf) fun descriptor_index buf =>
  pseq (readU16 buf) fun attributes_count buf =>
  pseq (parseCount AttributeInfo.parse attributes_count buf) fun attrInfos buf =>
  match Attribute.from_attribute_info fuel attrInfos constant_pool with
  | .ok attributes =>
    .ok (FieldInfo.mk access_flags name_index descriptor_index attributes_count attributes) buf
  | .err => .err
  | .panic => .panic
  | .outOfFuel => .outOfFuel

/-- FieldInfo::parse: the for loop reading fields_count records. -/
def FieldInfo.parse (fuel : Nat) (buf : Bytes) (fields_count : Nat)
    (constant_pool : List ConstantPool) : PRes (List FieldInfo) :=
  match fields_count with
  | 0 => .ok [] buf
  | n + 1 =>
    pseq (FieldInfo.parse_field_info fuel buf constant_pool) fun field buf =>
    pseq (FieldInfo.parse fuel buf n constant_pool) fun tail buf =>
    .ok (field :: tail) buf

/-- One method record of methodinfo.rs. -/
structure MethodInfo where
  access_flags : Nat
  name_index : Nat
  descriptor_index : Nat
  attributes_count : Nat
  attributes : List Attribute

/-- MethodInfo::parse_method_info. -/
def MethodInfo.parse_method_info (fuel : Nat) (buf : Bytes) (constant_pool : List ConstantPool) :
    PRes MethodInfo :=
  pseq (readU16 buf) fun access_flags buf =>
  pseq (readU16 buf) fun name_index buf =>
  pseq (readU16 buf) fun descriptor_index buf =>
  pseq (readU16 buf) fun attributes_count buf =>
  pseq (parseCount AttributeInfo.parse attributes_count buf) fun attrInfos buf =>
  match Attribute.from_attribute_info fuel attrInfos constant_pool with
  | .ok attributes =>
    .ok (MethodInfo.mk access_flags name_index descriptor_index attributes_count attributes) buf
  | .err => .err
  | .panic => .panic
  | .outOfFuel => .outOfFuel

/-- MethodInfo::parse: the for loop reading the method records. -/
def MethodInfo.parse (fuel : Nat) (buf : Bytes) (methods_count : Nat)
    (constant_pool : List ConstantPool) : PRes (List MethodInfo) :=
  match methods_count with
  | 0 => .ok [] buf
  | n + 1 =>
    pseq (MethodInfo.parse_method_info fuel buf constant_pool) fun m buf =>
    pseq (MethodInfo.parse fuel buf n constant_pool) fun tail buf =>
    .ok (m :: tail) buf

/-- The class file root record of classfile.rs. -/
structure ClassFile where
  minor_version : Nat
  major_version : Nat
  constant_pool_count : Nat
  constant_pool : List ConstantPool
  access_flags : Nat
  this_class : Nat
  super_class : Nat
  interfaces_count : Nat
  interfaces : List Nat
  fields_count : Nat
  fields : List FieldInfo
  methods_count : Nat
  methods : List MethodInfo
  attributes_count : Nat
  attributes : List Attribute

/-- The nom tag combinator matching the four magic bytes CAFEBABE; a
mismatch is a nom error returned to the caller. -/
def tagMagic (buf : Bytes) : PRes Unit :=
  pseq (takeN 4 buf) fun magic buf =>
  if magic = [0xCA, 0xFE, 0xBA, 0xBE] then .ok () buf else .err

/-- ClassFile::parse_class_file of classfile.rs: magic, versions,
constant pool, access flags, this and super class, interfaces, fields,
methods and top-level attributes, in file order. The debug print of the
source has no effect on the result and is not modelled. The unconsumed
rest of the buffer is returned with the class file, as nom does; the
function never inspects it. -/
def ClassFile.parse_class_file (fuel : Nat) (buf : Bytes) : PRes ClassFile :=
  pseq (tagMagic buf) fun _ buf =>
  pseq (readU16 buf) fun minor_version buf =>
  pseq (readU16 buf) fun major_version buf =>
  pseq (readU16 buf) fun constant_pool_count buf =>
  pseq (ConstantPool.parse buf constant_pool_count) fun constant_pool buf =>
  pseq (readU16 buf) fun access_flags buf =>
  pseq (readU16 buf) fun this_class buf =>
  pseq (readU16 buf) fun super_class buf =>
  pseq (readU16 buf) fun interfaces_count buf =>
  pseq (parseCount readU16 interfaces_count buf) fun interfaces buf =>
  pseq (readU16 buf) fun fields_count buf =>
  pseq (FieldInfo.parse fuel buf fields_count constant_pool) fun fields buf =>
  pseq (readU16 buf) fun methods_count buf =>
  pseq (MethodInfo.parse fuel buf methods_count constant_pool) fun methods buf =>
  pseq (readU16 buf) fun attributes_count buf =>
  pseq (parseCount AttributeInfo.parse attributes_count buf) fun attrInfos buf =>
  match Attribute.from_attribute_info fuel attrInfos constant_pool with
  | .ok attributes =>
    .ok (ClassFile.mk minor_version major_version constant_pool_count constant_pool
          access_flags this_class super_class interfaces_count interfaces
          fields_count fields methods_count methods attributes_count attributes) buf
  | .err => .err
  | .panic => .panic
  | .outOfFuel => .outOfFuel

/-- Big-endian two-byte encoding of a 16-bit value, for stating theorems
about the byte layout. -/
def u16be (n : Nat) : Bytes := [n / 256, n % 256]

/-- Big-endian four-byte encoding of a 32-bit value. -/
def u32be (n : Nat) : Bytes := [n / 16777216, n / 65536 % 256, n / 256 % 256, n % 256]

/-- Byte encoding of one exception table record: four 16-bit fields. -/
def encodeException (e : Exception) : Bytes :=
  u16be e.start_pc ++ u16be e.end_pc ++ u16be e.handler_pc ++ u16be e.catch_type

/-- Discriminator: is a pool entry a UTF8 entry. -/
def ConstantPool.isUTF8 : ConstantPool → Bool
  | ConstantPool.UTF8 _ => true
  | _ => false

/-- The 17 tag bytes of the constant pool table of constantpool.rs. -/
def cpKnownTags : List Nat := [7, 9, 10, 11, 8, 3, 4, 5, 6, 12, 1, 15, 16, 17, 18, 19, 20]

/-- The element value tag bytes accepted by ElementValue::parse. -/
def evKnownTags : List Nat :=
  [0x42, 0x43, 0x44, 0x46, 0x49, 0x4A, 0x53, 0x5A, 0x73, 0x65, 0x63, 0x40, 0x5B]

/-- The target type bytes accepted by TargetInfo::parse. -/
def targetKnownTypes : List Nat :=
  [0, 1, 0x10, 0x11, 0x12, 0x13, 0x14, 0x15, 0x16, 0x17, 0x40, 0x41, 0x42,
   0x43, 0x44, 0x45, 0x46, 0x47, 0x48, 0x49, 0x4A, 0x4B]

/-- The attribute name table of Attribute::parse, in source order. -/
def attributeKnownNames : List Bytes :=
  [asciiBytes "ConstantValue", asciiBytes "Code", asciiBytes "StackMapTable",
   asciiBytes "Exceptions", asciiBytes "InnerClasses", asciiBytes "EnclosingMethod",
   asciiBytes "Synthetic", asciiBytes "Signature", asciiBytes "SourceFile",
   asciiBytes "SourceDebugExtension", asciiBytes "LineNumberTable",
   asciiBytes "LocalVariableTable", asciiBytes "LocalVariableTypeTable",
   asciiBytes "Deprecated", asciiBytes "RuntimeVisibleAnnotations",
   asciiBytes "RuntimeInvisibleAnnotations", asciiBytes "RuntimeVisibleParameterAnnotations",
   asciiBytes "RuntimeInvisibleParameterAnnotations", asciiBytes "RuntimeVisibleTypeAnnotations",
   asciiBytes "RuntimeInvisibleTypeAnnotations", asciiBytes "AnnotationDefault",
   asciiBytes "BootstrapMethods", asciiBytes "MethodParameters", asciiBytes "Module",
   asciiBytes "ModulePackages", asciiBytes "ModuleMainClass", asciiBytes "NestHost",
   asciiBytes "NestMembers", asciiBytes "RecordComponentInfo", asciiBytes "PermittedSubclasses"]

/-- The stored pool of the pool scenario of the spec: declared count 5,
entries UTF8 x, Long 7, Integer 3 (the Long covers logical slots 2 and 3,
the Integer is external index 4). -/
def pool5 : List ConstantPool :=
  [ConstantPool.UTF8 (asciiBytes "x"), ConstantPool.Long 7, ConstantPool.Integer 3]

/-- A one-entry pool holding the UTF8 name ConstantValue at external
index 1. -/
def cvPool : List ConstantPool := [ConstantPool.UTF8 (asciiBytes "ConstantValue")]

/-- The minimal empty class of the spec scenarios: magic, minor 0,
major 61, declared pool count 1 with no entries, access 0, this 0,
super 0, no interfaces, fields, methods or attributes; 24 bytes. -/
def minimalClassBytes : Bytes :=
  [0xCA, 0xFE, 0xBA, 0xBE, 0, 0, 0, 0x3D, 0, 1, 0, 0, 0, 0, 0, 0,
   0, 0, 0, 0, 0, 0, 0, 0]

/-- The class file value decoded from minimalClassBytes. -/
def minimalClassFile : ClassFile :=
  ClassFile.mk 0 61 1 [] 0 0 0 0 [] 0 [] 0 [] 0 []

/-- A Code attribute body: max_stack 2, max_locals 1, one code byte 0xB1,
empty exception table, no nested attributes. -/
def codeBytesEx : Bytes := [0, 2, 0, 1, 0, 0, 0, 1, 0xB1, 0, 0, 0, 0]

/-- A one-entry pool holding the UTF8 name SourceDebugExtension at
external index 1. -/
def sdePool : List ConstantPool := [ConstantPool.UTF8 (asciiBytes "SourceDebugExtension")]

/-- Extension insensitivity of a parser: bytes appended after the input
never turn a success into a failure and never change the parsed value;
they are handed back appended to the unconsumed rest. Every parser of the
decoder reads fixed-width fields and counted repetitions from the front,
so this holds throughout; it is the formal shape of the absence of any
end-of-input or envelope-length check. -/
def ParserExtends {α : Type} (p : Bytes → PRes α) : Prop :=
  ∀ buf a rest extra, p buf = PRes.ok a rest → p (buf ++ extra) = PRes.ok a (rest ++ extra)

/-- Inversion for pseq: an ok outcome of the sequence comes from an ok
outcome of the first parser. -/
theorem pseq_eq_ok {α β : Type} {r : PRes α} {f : α → Bytes → PRes β} {v : β} {rest : Bytes}
    (h : pseq r f = PRes.ok v rest) :
    ∃ a m, r = PRes.ok a m ∧ f a m = PRes.ok v rest := by
  cases r with
  | ok a m => exact ⟨a, m, rfl, h⟩
  | err => simp [pseq] at h
  | panic => simp [pseq] at h
  | outOfFuel => simp [pseq] at h

/-- Computation rule of pseq on an ok result. -/
@[simp] theorem pseq_ok {α β : Type} (a : α) (r : Bytes) (f : α → Bytes → PRes β) :
    pseq (PRes.ok a r) f = f a r := rfl

/-- Reading back a big-endian 16-bit encoding. -/
@[simp] theorem readU16_u16be (n : Nat) (r : Bytes) : readU16 (u16be n ++ r) = PRes.ok n r := by
  simp [u16be, readU16]
  omega

/-- Reading back a big-endian 32-bit encoding. -/
@[simp] theorem readU32_u32be (n : Nat) (r : Bytes) : readU32 (u32be n ++ r) = PRes.ok n r := by
  simp [u32be, readU32]
  omega

/-- Taking exactly the length of a prefix returns that prefix and the
rest. -/
@[simp] theorem takeN_exact (l r : Bytes) : takeN l.length (l ++ r) = PRes.ok l r := by
  simp [takeN, List.take_left, List.drop_left]

/-- Reading back an encoded exception record. -/
@[simp] theorem Exception.parse_encode (e : Exception) (r : Bytes) :
    Exception.parse (encodeException e ++ r) = PRes.ok e r := by
  obtain ⟨a, b, c, d⟩ := e
  simp [encodeException, Exception.parse, List.append_assoc]

/-- Reading back a concatenation of encoded values with nom count. -/
theorem parseCount_encode {α : Type} (p : Bytes → PRes α) (enc : α → Bytes)
    (hp : ∀ x r, p (enc x ++ r) = PRes.ok x r) :
    ∀ (l : List α) (r : Bytes), parseCount p l.length ((l.map enc).flatten ++ r) = PRes.ok l r := by
  intro l
  induction l with
  | nil => intro r; simp [parseCount]
  | cons x xs ih =>
    intro r
    simp only [List.map_cons, List.flatten_cons, List.length_cons, parseCount,
      List.append_assoc, hp, pseq_ok, ih]

/-- Reading back an encoded exception table. -/
@[simp] theorem parseCount_encodeException (l : List Exception) (r : Bytes) :
    parseCount Exception.parse l.length ((l.map encodeException).flatten ++ r) = PRes.ok l r :=
  parseCount_encode Exception.parse encodeException Exception.parse_encode l r

/-- nom count yields exactly as many elements as requested. -/
theorem parseCount_length {α : Type} {p : Bytes → PRes α} :
    ∀ {n : Nat} {buf : Bytes} {l : List α} {rest : Bytes},
      parseCount p n buf = PRes.ok l rest → l.length = n := by
  intro n
  induction n with
  | zero =>
    intro buf l rest h
    simp only [parseCount] at h
    cases h
    rfl
  | succ m ih =>
    intro buf l rest h
    simp only [parseCount] at h
    obtain ⟨a, b1, _, h⟩ := pseq_eq_ok h
    obtain ⟨tail, b2, htail, h⟩ := pseq_eq_ok h
    cases h
    simp [ih htail]

/-- take returns exactly as many bytes as requested when it succeeds. -/
theorem takeN_ok_length {n : Nat} {buf l rest : Bytes}
    (h : takeN n buf = PRes.ok l rest) : l.length = n := by
  unfold takeN at h
  by_cases hle : n ≤ buf.length
  · rw [if_pos hle] at h
    cases h
    simp [List.length_take]
    omega
  · rw [if_neg hle] at h
    cases h

/-- from_attribute_info promotes every envelope: on success the list of
typed attributes has the length of the envelope list. -/
theorem from_attribute_info_length :
    ∀ {fuel : Nat} {infos : List AttributeInfo} {pool : List ConstantPool}
      {attrs : List Attribute},
      Attribute.from_attribute_info fuel infos pool = DRes.ok attrs →
      attrs.length = infos.length := by
  intro fuel
  induction fuel with
  | zero =>
    intro infos pool attrs h
    simp [Attribute.from_attribute_info] at h
  | succ f ih =>
    intro infos pool attrs h
    cases infos with
    | nil =>
      simp only [Attribute.from_attribute_info] at h
      cases h
      rfl
    | cons a rest =>
      simp only [Attribute.from_attribute_info] at h
      cases hp : Attribute.parse f a.attribute_name_index a.info pool <;> rw [hp] at h
      case ok v =>
        cases hr : Attribute.from_attribute_info f rest pool <;> rw [hr] at h
        case ok tail =>
          cases h
          simp [ih hr]
        case err => cases h
        case panic => cases h
        case outOfFuel => cases h
      case err => cases h
      case panic => cases h
      case outOfFuel => cases h

/-- The field loop yields exactly fields_count records on success. -/
theorem fields_loop_length :
    ∀ {fuel : Nat} {n : Nat} {buf : Bytes} {pool : List ConstantPool}
      {l : List FieldInfo} {rest : Bytes},
      FieldInfo.parse fuel buf n pool = PRes.ok l rest → l.length = n := by
  intro fuel n
  induction n with
  | zero =>
    intro buf pool l rest h
    simp only [FieldInfo.parse] at h
    cases h
    rfl
  | succ m ih =>
    intro buf pool l rest h
    simp only [FieldInfo.parse] at h
    obtain ⟨a, b1, _, h⟩ := pseq_eq_ok h
    obtain ⟨tail, b2, htail, h⟩ := pseq_eq_ok h
    cases h
    simp [ih htail]

/-- The method loop yields exactly methods_count records on success. -/
theorem methods_loop_length :
    ∀ {fuel : Nat} {n : Nat} {buf : Bytes} {pool : List ConstantPool}
      {l : List MethodInfo} {rest : Bytes},
      MethodInfo.parse fuel buf n pool = PRes.ok l rest → l.length = n := by
  intro fuel n
  induction n with
  | zero =>
    intro buf pool l rest h
    simp only [MethodInfo.parse] at h
    cases h
    rfl
  | succ m ih =>
    intro buf pool l rest h
    simp only [MethodInfo.parse] at h
    obtain ⟨a, b1, _, h⟩ := pseq_eq_ok h
    obtain ⟨tail, b2, htail, h⟩ := pseq_eq_ok h
    cases h
    simp [ih htail]

/-- Returning a constant value with the current buffer extends. -/
theorem ok_extends {α : Type} (v : α) : ParserExtends (fun buf => PRes.ok v buf) := by
  intro buf a rest extra h
  simp only [PRes.ok.injEq] at h
  obtain ⟨h1, h2⟩ := h
  subst h1
  subst h2
  rfl

/-- The constant error parser extends vacuously. -/
theorem err_extends {α : Type} : ParserExtends (fun _ => (PRes.err : PRes α)) := by
  intro buf a rest extra h
  simp at h

/-- The constant abort parser extends vacuously. -/
theorem panic_extends {α : Type} : ParserExtends (fun _ => (PRes.panic : PRes α)) := by
  intro buf a rest extra h
  simp at h

/-- Sequencing preserves extension insensitivity. -/
theorem pseq_extends {α β : Type} {p : Bytes → PRes α} {f : α → Bytes → PRes β}
    (hp : ParserExtends p) (hf : ∀ a, ParserExtends (f a)) :
    ParserExtends (fun buf => pseq (p buf) f) := by
  intro buf b rest extra h
  obtain ⟨a, m, h1, h2⟩ := pseq_eq_ok h
  simp only [hp buf a m extra h1, pseq_ok]
  exact hf a m b rest extra h2

/-- Branching on a condition that does not inspect the buffer preserves
extension insensitivity. -/
theorem ite_extends {α : Type} (c : Prop) [Decidable c] {p q : Bytes → PRes α}
    (hp : ParserExtends p) (hq : ParserExtends q) :
    ParserExtends (fun buf => if c then p buf else q buf) := by
  intro buf a rest extra h
  by_cases hc : c
  · simp only [if_pos hc] at h ⊢
    exact hp buf a rest extra h
  · simp only [if_neg hc] at h ⊢
    exact hq buf a rest extra h

/-- Discarding the rest preserves a successful promotion when the
underlying parser extends: the promoted value reads only the consumed
prefix. -/
theorem discardRest_extends {α β : Type} {p : Bytes → PRes α} (hp : ParserExtends p)
    (f : α → β) {info extra : Bytes} {a : β}
    (h : discardRest (p info) f = DRes.ok a) :
    discardRest (p (info ++ extra)) f = DRes.ok a := by
  cases hpi : p info with
  | ok v m =>
    rw [hpi] at h
    rw [hp info v m extra hpi]
    simpa using h
  | err => rw [hpi] at h; simp [discardRest] at h
  | panic => rw [hpi] at h; simp [discardRest] at h
  | outOfFuel => rw [hpi] at h; simp [discardRest] at h

/-- readU8 extends. -/
theorem readU8_extends : ParserExtends readU8 := by
  intro buf a rest extra h
  match buf with
  | [] => simp [readU8] at h
  | x :: r => simp_all [readU8]

/-- readU16 extends. -/
theorem readU16_extends : ParserExtends readU16 := by
  intro buf a rest extra h
  match buf with
  | [] | [_] => simp [readU16] at h
  | x :: y :: r => simp_all [readU16]

/-- readU32 extends. -/
theorem readU32_extends : ParserExtends readU32 := by
  intro buf a rest extra h
  match buf with
  | [] | [_] | [_, _] | [_, _, _] => simp [readU32] at h
  | x :: y :: z :: w :: r => simp_all [readU32]

/-- readU64 extends. -/
theorem readU64_extends : ParserExtends readU64 := by
  intro buf a rest extra h
  match buf with
  | [] | [_] | [_, _] | [_, _, _] | [_, _, _, _] | [_, _, _, _, _]
  | [_, _, _, _, _, _] | [_, _, _, _, _, _, _] => simp [readU64] at h
  | b1 :: b2 :: b3 :: b4 :: b5 :: b6 :: b7 :: b8 :: r => simp_all [readU64]

/-- takeN extends: a take that succeeded reads the same prefix of the
extended buffer. -/
theorem takeN_extends (n : Nat) : ParserExtends (takeN n) := by
  intro buf a rest extra h
  unfold takeN at h ⊢
  by_cases hle : n ≤ buf.length
  · rw [if_pos hle] at h
    simp only [PRes.ok.injEq] at h
    obtain ⟨h1, h2⟩ := h
    subst h1
    subst h2
    rw [if_pos (by simp; omega), List.take_append_of_le_length hle,
      List.drop_append_of_le_length hle]
  · rw [if_neg hle] at h
    cases h

/-- nom count extends when its element parser does. -/
theorem parseCount_extends {α : Type} {p : Bytes → PRes α} (hp : ParserExtends p) :
    ∀ n, ParserExtends (parseCount p n) := by
  intro n
  induction n with
  | zero => exact ok_extends []
  | succ m ih =>
    exact pseq_extends hp fun a => pseq_extends ih fun tail => ok_extends (a :: tail)

/-- ConstantPool::parse_constant extends: every arm reads fixed-width
fields or a length-prefixed take from the front. -/
theorem parse_constant_extends : ParserExtends ConstantPool.parse_constant :=
  pseq_extends readU8_extends fun _tag =>
  ite_extends _ (pseq_extends readU16_extends fun n => ok_extends (ConstantPool.Class n)) <|
  ite_extends _ (pseq_extends readU16_extends fun c => pseq_extends readU16_extends fun n =>
    ok_extends (ConstantPool.FieldRef c n)) <|
  ite_extends _ (pseq_extends readU16_extends fun c => pseq_extends readU16_extends fun n =>
    ok_extends (ConstantPool.MethodRef c n)) <|
  ite_extends _ (pseq_extends readU16_extends fun c => pseq_extends readU16_extends fun n =>
    ok_extends (ConstantPool.InterfaceMethodRef c n)) <|
  ite_extends _ (pseq_extends readU16_extends fun n => ok_extends (ConstantPool.String n)) <|
  ite_extends _ (pseq_extends readU32_extends fun v => ok_extends (ConstantPool.Integer (toI32 v))) <|
  ite_extends _ (pseq_extends readU32_extends fun v => ok_extends (ConstantPool.Float v)) <|
  ite_extends _ (pseq_extends readU64_extends fun v => ok_extends (ConstantPool.Long (toI64 v))) <|
  ite_extends _ (pseq_extends readU64_extends fun v => ok_extends (ConstantPool.Double v)) <|
  ite_extends _ (pseq_extends readU16_extends fun n => pseq_extends readU16_extends fun d =>
    ok_extends (ConstantPool.NameAndType n d)) <|
  ite_extends _ (pseq_extends readU16_extends fun len => pseq_extends (takeN_extends len) fun v =>
    ite_extends _ (ok_extends (ConstantPool.UTF8 v)) panic_extends) <|
  ite_extends _ (pseq_extends readU8_extends fun k => pseq_extends readU16_extends fun i =>
    ok_extends (ConstantPool.MethodHandle k i)) <|
  ite_extends _ (pseq_extends readU16_extends fun d => ok_extends (ConstantPool.MethodType d)) <|
  ite_extends _ (pseq_extends readU16_extends fun b => pseq_extends readU16_extends fun n =>
    ok_extends (ConstantPool.Dynamic b n)) <|
  ite_extends _ (pseq_extends readU16_extends fun b => pseq_extends readU16_extends fun n =>
    ok_extends (ConstantPool.InvokeDynamic b n)) <|
  ite_extends _ (pseq_extends readU16_extends fun n => ok_extends (ConstantPool.Module n)) <|
  ite_extends _ (pseq_extends readU16_extends fun n => ok_extends (ConstantPool.Package n))
    panic_extends

/-- VerificationTypeInfo::parse extends. -/
theorem verification_type_info_parse_extends : ParserExtends VerificationTypeInfo.parse :=
  pseq_extends readU8_extends fun _tag =>
  ite_extends _ (ok_extends VerificationTypeInfo.TopVariableInfo) <|
  ite_extends _ (ok_extends VerificationTypeInfo.IntegerVariableInfo) <|
  ite_extends _ (ok_extends VerificationTypeInfo.FloatVariableInfo) <|
  ite_extends _ (ok_extends VerificationTypeInfo.DoubleVariableInfo) <|
  ite_extends _ (ok_extends VerificationTypeInfo.LongVariableInfo) <|
  ite_extends _ (ok_extends VerificationTypeInfo.NullVariableInfo) <|
  ite_extends _ (ok_extends VerificationTypeInfo.UninitializedThisVariableInfo) <|
  ite_extends _ (pseq_extends readU16_extends fun i =>
    ok_extends (VerificationTypeInfo.ObjectVariableInfo i)) <|
  ite_extends _ (pseq_extends readU16_extends fun o =>
    ok_extends (VerificationTypeInfo.UninitializedVariableInfo o))
    panic_extends

/-- StackMapFrame::parse extends. -/
theorem stack_map_frame_parse_extends : ParserExtends StackMapFrame.parse :=
  pseq_extends readU8_extends fun frame =>
  ite_extends _ (ok_extends StackMapFrame.SameFrame) <|
  ite_extends _ (pseq_extends verification_type_info_parse_extends fun v =>
    ok_extends (StackMapFrame.SameLocals1StackItemFrame v)) <|
  ite_extends _ (pseq_extends readU16_extends fun o =>
    pseq_extends verification_type_info_parse_extends fun v =>
    ok_extends (StackMapFrame.SameLocals1StackItemFrameExtended o v)) <|
  ite_extends _ (pseq_extends readU16_extends fun o =>
    ok_extends (StackMapFrame.ChopFrame o)) <|
  ite_extends _ (pseq_extends readU16_extends fun o =>
    ok_extends (StackMapFrame.SameFrameExtended o)) <|
  ite_extends _ (ite_extends _ panic_extends
    (pseq_extends readU16_extends fun o =>
     pseq_extends (parseCount_extends verification_type_info_parse_extends (frame - 251)) fun ls =>
     ok_extends (StackMapFrame.AppendFrame o ls))) <|
  ite_extends _ (pseq_extends readU16_extends fun o =>
    pseq_extends readU16_extends fun nl =>
    pseq_extends (parseCount_extends verification_type_info_parse_extends nl) fun ls =>
    pseq_extends readU16_extends fun ns =>
    pseq_extends (parseCount_extends verification_type_info_parse_extends ns) fun st =>
    ok_extends (StackMapFrame.FullFrame o nl ls ns st))
    panic_extends

/-- StackMapTable::parse extends. -/
theorem stack_map_table_parse_extends : ParserExtends StackMapTable.parse :=
  pseq_extends readU16_extends fun n =>
  pseq_extends (parseCount_extends stack_map_frame_parse_extends n) fun es =>
  ok_extends (StackMapTable.mk es)

/-- Exception::parse extends. -/
theorem exception_parse_extends : ParserExtends Exception.parse :=
  pseq_extends readU16_extends fun s =>
  pseq_extends readU16_extends fun e =>
  pseq_extends readU16_extends fun hh =>
  pseq_extends readU16_extends fun c =>
  ok_extends (Exception.mk s e hh c)

/-- Exceptions::parse extends. -/
theorem exceptions_parse_extends : ParserExtends Exceptions.parse :=
  pseq_extends readU16_extends fun n =>
  pseq_extends (parseCount_extends readU16_extends n) fun t =>
  ok_extends (Exceptions.mk t)

/-- InnerClass::parse extends. -/
theorem inner_class_parse_extends : ParserExtends InnerClass.parse :=
  pseq_extends readU16_extends fun a =>
  pseq_extends readU16_extends fun b =>
  pseq_extends readU16_extends fun c =>
  pseq_extends readU16_extends fun d =>
  ok_extends (InnerClass.mk a b c d)

/-- InnerClasses::parse extends. -/
theorem inner_classes_parse_extends : ParserExtends InnerClasses.parse :=
  pseq_extends readU16_extends fun n =>
  pseq_extends (parseCount_extends inner_class_parse_extends n) fun cs =>
  ok_extends (InnerClasses.mk cs)

/-- EnclosingMethod::parse extends. -/
theorem enclosing_method_parse_extends : ParserExtends EnclosingMethod.parse :=
  pseq_extends readU16_extends fun c =>
  pseq_extends readU16_extends fun m =>
  ok_extends (EnclosingMethod.mk c m)

/-- Signature::parse extends. -/
theorem signature_parse_extends : ParserExtends Signature.parse :=
  pseq_extends readU16_extends fun s => ok_extends (Signature.mk s)

/-- SourceFile::parse extends. -/
theorem source_file_parse_extends : ParserExtends SourceFile.parse :=
  pseq_extends readU16_extends fun s => ok_extends (SourceFile.mk s)

/-- LineNumber::parse extends. -/
theorem line_number_parse_extends : ParserExtends LineNumber.parse :=
  pseq_extends readU16_extends fun s =>
  pseq_extends readU16_extends fun l =>
  ok_extends (LineNumber.mk s l)

/-- LocalVariable::parse extends. -/
theorem local_variable_parse_extends : ParserExtends LocalVariable.parse :=
  pseq_extends readU16_extends fun a =>
  pseq_extends readU16_extends fun b =>
  pseq_extends readU16_extends fun c =>
  pseq_extends readU16_extends fun d =>
  pseq_extends readU16_extends fun e =>
  ok_extends (LocalVariable.mk a b c d e)

/-- LocalVariableType::parse extends. -/
theorem local_variable_type_parse_extends : ParserExtends LocalVariableType.parse :=
  pseq_extends readU16_extends fun a =>
  pseq_extends readU16_extends fun b =>
  pseq_extends readU16_extends fun c =>
  pseq_extends readU16_extends fun d =>
  pseq_extends readU16_extends fun e =>
  ok_extends (LocalVariableType.mk a b c d e)

/-- LocalVar::parse extends. -/
theorem local_var_parse_extends : ParserExtends LocalVar.parse :=
  pseq_extends readU16_extends fun a =>
  pseq_extends readU16_extends fun b =>
  pseq_extends readU16_extends fun c =>
  ok_extends (LocalVar.mk a b c)

/-- TargetInfo::parse extends for every target type. -/
theorem target_info_parse_extends (target_type : Nat) :
    ParserExtends (fun buf => TargetInfo.parse buf target_type) :=
  ite_extends _ (pseq_extends readU8_extends fun i => ok_extends (TargetInfo.TypeParameter i)) <|
  ite_extends _ (pseq_extends readU16_extends fun i => ok_extends (TargetInfo.SuperType i)) <|
  ite_extends _ (pseq_extends readU8_extends fun i => pseq_extends readU8_extends fun b =>
    ok_extends (TargetInfo.TypeParameterBound i b)) <|
  ite_extends _ (ok_extends TargetInfo.Empty) <|
  ite_extends _ (pseq_extends readU8_extends fun i => ok_extends (TargetInfo.FormalParameter i)) <|
  ite_extends _ (pseq_extends readU16_extends fun i => ok_extends (TargetInfo.Throws i)) <|
  ite_extends _ (pseq_extends readU16_extends fun n =>
    pseq_extends (parseCount_extends local_var_parse_extends n) fun t =>
    ok_extends (TargetInfo.LocalVarTarget t)) <|
  ite_extends _ (pseq_extends readU16_extends fun i => ok_extends (TargetInfo.Catch i)) <|
  ite_extends _ (pseq_extends readU16_extends fun o => ok_extends (TargetInfo.Offset o)) <|
  ite_extends _ (pseq_extends readU16_extends fun o => pseq_extends readU8_extends fun i =>
    ok_extends (TargetInfo.TypeArgument o i))
    panic_extends

/-- PathStep::parse extends. -/
theorem path_step_parse_extends : ParserExtends PathStep.parse :=
  pseq_extends readU8_extends fun k =>
  pseq_extends readU8_extends fun i =>
  ok_extends (PathStep.mk k i)

/-- TypePath::parse extends. -/
theorem type_path_parse_extends : ParserExtends TypePath.parse :=
  pseq_extends readU8_extends fun n =>
  pseq_extends (parseCount_extends path_step_parse_extends n) fun p =>
  ok_extends (TypePath.mk p)

/-- BootstrapMethod::parse extends. -/
theorem bootstrap_method_parse_extends : ParserExtends BootstrapMethod.parse :=
  pseq_extends readU16_extends fun r =>
  pseq_extends readU16_extends fun n =>
  pseq_extends (parseCount_extends readU16_extends n) fun args =>
  ok_extends (BootstrapMethod.mk r args)

/-- Parameter::parse extends. -/
theorem parameter_parse_extends : ParserExtends Parameter.parse :=
  pseq_extends readU16_extends fun n =>
  pseq_extends readU16_extends fun a =>
  ok_extends (Parameter.mk n a)

/-- Requires::parse extends. -/
theorem requires_parse_extends : ParserExtends Requires.parse :=
  pseq_extends readU16_extends fun a =>
  pseq_extends readU16_extends fun b =>
  pseq_extends readU16_extends fun c =>
  ok_extends (Requires.mk a b c)

/-- Exports::parse extends. -/
theorem exports_parse_extends : ParserExtends Exports.parse :=
  pseq_extends readU16_extends fun a =>
  pseq_extends readU16_extends fun b =>
  pseq_extends readU16_extends fun n =>
  pseq_extends (parseCount_extends readU16_extends n) fun t =>
  ok_extends (Exports.mk a b t)

/-- Opens::parse extends. -/
theorem opens_parse_extends : ParserExtends Opens.parse :=
  pseq_extends readU16_extends fun a =>
  pseq_extends readU16_extends fun b =>
  pseq_extends readU16_extends fun n =>
  pseq_extends (parseCount_extends readU16_extends n) fun t =>
  ok_extends (Opens.mk a b t)

/-- Provides::parse extends. -/
theorem provides_parse_extends : ParserExtends Provides.parse :=
  pseq_extends readU16_extends fun a =>
  pseq_extends readU16_extends fun n =>
  pseq_extends (parseCount_extends readU16_extends n) fun t =>
  ok_extends (Provides.mk a t)

/-- Module::parse extends. -/
theorem module_attribute_parse_extends : ParserExtends ModuleAttribute.parse :=
  pseq_extends readU16_extends fun a =>
  pseq_extends readU16_extends fun b =>
  pseq_extends readU16_extends fun c =>
  pseq_extends readU16_extends fun rc =>
  pseq_extends (parseCount_extends requires_parse_extends rc) fun rs =>
  pseq_extends readU16_extends fun ec =>
  pseq_extends (parseCount_extends exports_parse_extends ec) fun es =>
  pseq_extends readU16_extends fun oc =>
  pseq_extends (parseCount_extends opens_parse_extends oc) fun os =>
  pseq_extends readU16_extends fun uc =>
  pseq_extends (parseCount_extends readU16_extends uc) fun us =>
  pseq_extends readU16_extends fun pc =>
  pseq_extends (parseCount_extends provides_parse_extends pc) fun ps =>
  ok_extends (ModuleAttribute.mk a b c rs es os us ps)

/-- AttributeInfo::parse extends. -/
theorem attribute_info_parse_extends : ParserExtends AttributeInfo.parse :=
  pseq_extends readU16_extends fun n =>
  pseq_extends readU32_extends fun len =>
  pseq_extends (takeN_extends len) fun info =>
  ok_extends (AttributeInfo.mk n len info)

/-- The annotation and element value family extends, simultaneously over
its four mutually recursive parsers, by induction on the fuel. -/
theorem annot_family_extends : ∀ fuel,
    ParserExtends (Annot.parse fuel)
    ∧ (∀ n, ParserExtends (evPairsLoop fuel n))
    ∧ ParserExtends (ElementValue.parse fuel)
    ∧ (∀ n, ParserExtends (evArrayLoop fuel n)) := by
  intro fuel
  induction fuel with
  | zero =>
    refine ⟨?_, fun n => ?_, ?_, fun n => ?_⟩ <;>
      (intro buf a rest extra h;
       simp [Annot.parse, evPairsLoop, ElementValue.parse, evArrayLoop] at h)
  | succ f ih =>
    obtain ⟨ihA, ihP, ihE, ihV⟩ := ih
    refine ⟨?_, ?_, ?_, ?_⟩
    · exact pseq_extends readU16_extends fun t =>
        pseq_extends readU16_extends fun n =>
        pseq_extends (ihP n) fun ps =>
        ok_extends (Annot.mk t ps)
    · intro n
      cases n with
      | zero => exact ok_extends []
      | succ m =>
        exact pseq_extends readU16_extends fun i =>
          pseq_extends ihE fun v =>
          pseq_extends (ihP m) fun tail =>
          ok_extends ((i, v) :: tail)
    · exact pseq_extends readU8_extends fun tag =>
        ite_extends _ (pseq_extends readU16_extends fun i =>
          ok_extends (ElementValue.ConstValue i)) <|
        ite_extends _ (pseq_extends readU16_extends fun t =>
          pseq_extends readU16_extends fun c =>
          ok_extends (ElementValue.EnumConstValue t c)) <|
        ite_extends _ (pseq_extends readU16_extends fun i =>
          ok_extends (ElementValue.ClassInfoIndex i)) <|
        ite_extends _ (pseq_extends ihA fun a =>
          ok_extends (ElementValue.AnnotationValue a)) <|
        ite_extends _ (pseq_extends readU16_extends fun n =>
          pseq_extends (ihV n) fun vs =>
          ok_extends (ElementValue.ArrayValue vs))
          panic_extends
    · intro n
      cases n with
      | zero => exact ok_extends []
      | succ m =>
        exact pseq_extends ihE fun v =>
          pseq_extends (ihV m) fun tail =>
          ok_extends (v :: tail)

/-- Annotation::parse extends. -/
theorem annot_parse_extends (fuel : Nat) : ParserExtends (Annot.parse fuel) :=
  (annot_family_extends fuel).1

/-- The element value pair loop extends. -/
theorem ev_pairs_loop_extends (fuel n : Nat) : ParserExtends (evPairsLoop fuel n) :=
  (annot_family_extends fuel).2.1 n

/-- ElementValue::parse extends. -/
theorem element_value_parse_extends (fuel : Nat) : ParserExtends (ElementValue.parse fuel) :=
  (annot_family_extends fuel).2.2.1

/-- ParameterAnnotation::parse extends. -/
theorem parameter_annot_parse_extends (fuel : Nat) : ParserExtends (ParameterAnnot.parse fuel) :=
  pseq_extends readU16_extends fun n =>
  pseq_extends (parseCount_extends (annot_parse_extends fuel) n) fun l =>
  ok_extends (ParameterAnnot.mk l)

/-- TypeAnnotation::parse extends. -/
theorem type_annot_parse_extends (fuel : Nat) : ParserExtends (TypeAnnot.parse fuel) :=
  pseq_extends readU8_extends fun tt =>
  pseq_extends (target_info_parse_extends tt) fun ti =>
  pseq_extends type_path_parse_extends fun tp =>
  pseq_extends readU16_extends fun tix =>
  pseq_extends readU16_extends fun n =>
  pseq_extends (ev_pairs_loop_extends fuel n) fun ps =>
  ok_extends (TypeAnnot.mk tt ti tp tix ps)

/-- Code::parse extends: the nested attribute envelopes are fully taken
before promotion, so the promotion result only depends on the consumed
prefix. -/
theorem code_parse_extends (fuel : Nat) (pool : List ConstantPool) :
    ParserExtends (fun buf => Code.parse fuel buf pool) := by
  cases fuel with
  | zero => intro buf a rest extra h; simp [Code.parse] at h
  | succ f =>
    exact pseq_extends readU16_extends fun ms =>
      pseq_extends readU16_extends fun ml =>
      pseq_extends readU32_extends fun cl =>
      pseq_extends (takeN_extends cl) fun cs =>
      pseq_extends readU16_extends fun etl =>
      pseq_extends (parseCount_extends exception_parse_extends etl) fun et =>
      pseq_extends readU16_extends fun ac =>
      pseq_extends (parseCount_extends attribute_info_parse_extends ac) fun ais => by
        intro buf a rest extra h
        cases hfa : Attribute.from_attribute_info f ais pool <;>
          simp only [hfa] at h ⊢ <;> simp_all

/-- RecordComponentInfo::parse extends. -/
theorem record_component_info_parse_extends (fuel : Nat) (pool : List ConstantPool) :
    ParserExtends (fun buf => RecordComponentInfo.parse fuel buf pool) := by
  cases fuel with
  | zero => intro buf a rest extra h; simp [RecordComponentInfo.parse] at h
  | succ f =>
    exact pseq_extends readU16_extends fun ni =>
      pseq_extends readU16_extends fun di =>
      pseq_extends readU16_extends fun ac =>
      pseq_extends (parseCount_extends attribute_info_parse_extends ac) fun ais => by
        intro buf a rest extra h
        cases hfa : Attribute.from_attribute_info f ais pool <;>
          simp only [hfa] at h ⊢ <;> simp_all

/-- The record component loop extends. -/
theorem record_components_loop_extends (fuel : Nat) (pool : List ConstantPool) :
    ∀ n, ParserExtends (fun buf => recordComponentsLoop fuel n buf pool) := by
  induction fuel with
  | zero => intro n buf a rest extra h; simp [recordComponentsLoop] at h
  | succ f ih =>
    intro n
    cases n with
    | zero => exact ok_extends []
    | succ m =>
      exact pseq_extends (record_component_info_parse_extends f pool) fun comp =>
        pseq_extends (ih m) fun tail =>
        ok_extends (comp :: tail)

/-- Both constant pool loops extend, by strong induction on the slot
count. -/
theorem cploop_both_extends : ∀ r,
    ParserExtends (ConstantPool.parseLoop r) ∧ ParserExtends (ConstantPool.parseLoopWide r) := by
  intro r
  induction r using Nat.strong_induction_on with
  | _ r ih =>
    match r with
    | 0 => exact ⟨ok_extends [], ok_extends []⟩
    | Nat.succ r2 =>
      refine ⟨?_, (ih r2 (by omega)).1⟩
      exact pseq_extends parse_constant_extends fun c =>
        pseq_extends (ite_extends _ (ih r2 (by omega)).2 (ih r2 (by omega)).1) fun tail =>
        ok_extends (c :: tail)

/-- The constant pool loop extends. -/
theorem cploop_extends (r : Nat) : ParserExtends (ConstantPool.parseLoop r) :=
  (cploop_both_extends r).1

/-- ConstantPool::parse extends for every declared count. -/
theorem constant_pool_parse_extends (count : Nat) :
    ParserExtends (fun buf => ConstantPool.parse buf count) :=
  ite_extends _ panic_extends (cploop_extends (count - 1))

/-- The magic tag check extends. -/
theorem tag_magic_extends : ParserExtends tagMagic :=
  pseq_extends (takeN_extends 4) fun _m =>
  ite_extends _ (ok_extends ()) err_extends

/-- FieldInfo::parse_field_info extends. -/
theorem field_info_record_extends (fuel : Nat) (pool : List ConstantPool) :
    ParserExtends (fun buf => FieldInfo.parse_field_info fuel buf pool) :=
  pseq_extends readU16_extends fun af =>
  pseq_extends readU16_extends fun ni =>
  pseq_extends readU16_extends fun di =>
  pseq_extends readU16_extends fun ac =>
  pseq_extends (parseCount_extends attribute_info_parse_extends ac) fun ais => by
    intro buf a rest extra h
    cases hfa : Attribute.from_attribute_info fuel ais pool <;>
      simp only [hfa] at h ⊢ <;> simp_all

/-- The field loop extends. -/
theorem fields_loop_extends (fuel : Nat) (pool : List ConstantPool) :
    ∀ n, ParserExtends (fun buf => FieldInfo.parse fuel buf n pool) := by
  intro n
  induction n with
  | zero => exact ok_extends []
  | succ m ih =>
    exact pseq_extends (field_info_record_extends fuel pool) fun fld =>
      pseq_extends ih fun tail =>
      ok_extends (fld :: tail)

/-- MethodInfo::parse_method_info extends. -/
theorem method_info_record_extends (fuel : Nat) (pool : List ConstantPool) :
    ParserExtends (fun buf => MethodInfo.parse_method_info fuel buf pool) :=
  pseq_extends readU16_extends fun af =>
  pseq_extends readU16_extends fun ni =>
  pseq_extends readU16_extends fun di =>
  pseq_extends readU16_extends fun ac =>
  pseq_extends (parseCount_extends attribute_info_parse_extends ac) fun ais => by
    intro buf a rest extra h
    cases hfa : Attribute.from_attribute_info fuel ais pool <;>
      simp only [hfa] at h ⊢ <;> simp_all

/-- The method loop extends. -/
theorem methods_loop_extends (fuel : Nat) (pool : List ConstantPool) :
    ∀ n, ParserExtends (fun buf => MethodInfo.parse fuel buf n pool) := by
  intro n
  induction n with
  | zero => exact ok_extends []
  | succ m ih =>
    exact pseq_extends (method_info_record_extends fuel pool) fun mth =>
      pseq_extends ih fun tail =>
      ok_extends (mth :: tail)

/-- ClassFile::parse_class_file extends: no field of the class file and
no failure of its decode depends on bytes beyond the consumed prefix. -/
theorem class_file_parse_extends (fuel : Nat) :
    ParserExtends (ClassFile.parse_class_file fuel) :=
  pseq_extends tag_magic_extends fun _ =>
  pseq_extends readU16_extends fun minor =>
  pseq_extends readU16_extends fun major =>
  pseq_extends readU16_extends fun cpc =>
  pseq_extends (constant_pool_parse_extends cpc) fun cpool =>
  pseq_extends readU16_extends fun af =>
  pseq_extends readU16_extends fun tc =>
  pseq_extends readU16_extends fun sc =>
  pseq_extends readU16_extends fun ic =>
  pseq_extends (parseCount_extends readU16_extends ic) fun ifs =>
  pseq_extends readU16_extends fun fc =>
  pseq_extends (fields_loop_extends fuel cpool fc) fun flds =>
  pseq_extends readU16_extends fun mc =>
  pseq_extends (methods_loop_extends fuel cpool mc) fun mths =>
  pseq_extends readU16_extends fun ac =>
  pseq_extends (parseCount_extends attribute_info_parse_extends ac) fun ais => by
    intro buf a rest extra h
    cases hfa : Attribute.from_attribute_info fuel ais cpool <;>
      simp only [hfa] at h ⊢ <;> simp_all

/-- Claim C1, evaluation of the code at the failing inputs. The claim
says that exactly the Long and Double entries consume two logical slots
each and that every other kind, including Float, consumes one. The
decoder instead counts Long and Float as two slots and Double as one.
First input: declared count 4 with entries Float, Integer, Integer; under
the claim all three entries fill the three slots, but the decoder stops
after two stored entries, leaving the last five bytes unread. Second
input: declared count 3 with a Double then an Integer; under the claim
the Double alone fills both slots, but the decoder also consumes the
Integer. -/
theorem c1_wide_slot_counting_code_eval :
    ConstantPool.parse [4, 0, 0, 0, 0, 3, 0, 0, 0, 1, 3, 0, 0, 0, 2] 4
      = PRes.ok [ConstantPool.Float 0, ConstantPool.Integer 1] [3, 0, 0, 0, 2]
    ∧ ConstantPool.parse [6, 0, 0, 0, 0, 0, 0, 0, 0, 3, 0, 0, 0, 7] 3
      = PRes.ok [ConstantPool.Double 0, ConstantPool.Integer 7] [] :=
  ⟨rfl, rfl⟩

/-- Claim C2, evaluation of the code at the failing input. For the pool
of declared count 5 storing UTF8, Long, Integer, the claim requires
external index 4 to resolve to the Integer and external index 3 to fail.
The dispatcher translates no wide-entry gaps: it reads stored position
index minus 1, so index 4 reaches position 3, which is absent (the unwrap
aborts), and index 3 reaches the Integer at position 2 (and then aborts
on the kind, not on the bounds). -/
theorem c2_index_translation_code_eval :
    pool5[4 - 1]? = none
    ∧ pool5[3 - 1]? = some (ConstantPool.Integer 3)
    ∧ Attribute.parse 5 4 [] pool5 = DRes.panic
    ∧ Attribute.parse 5 3 [] pool5 = DRes.panic :=
  ⟨rfl, rfl, rfl, rfl⟩

/-- Claim C3, evaluation of the code at the failing inputs. The claim
requires every tag in 128 to 246 to yield the UnknownStackMapFrame error
value. The decoder instead sends tags 242 to 246 into its append arm,
whose locals count, tag minus 251, underflows and aborts; and tags 128 to
241 hit the unimplemented macro, also an abort. -/
theorem c3_stackmap_tag_dispatch_code_eval :
    StackMapFrame.parse [242, 0, 5] = PRes.panic
    ∧ StackMapFrame.parse [128] = PRes.panic :=
  ⟨rfl, rfl⟩

/-- Claim C4, counterexample. A ConstantValue attribute whose envelope
declares length 4 has its sub-grammar consume only two bytes (the residue
of the readU16 is the two bytes 0, 0), yet the dispatch succeeds instead
of failing with a length mismatch error as the claim requires. -/
theorem c4_length_mismatch_counterexample :
    readU16 [0, 5, 0, 0] = PRes.ok 5 [0, 0]
    ∧ Attribute.parse 5 1 [0, 5, 0, 0] cvPool = DRes.ok (Attribute.ConstantValue 5) :=
  ⟨rfl, rfl⟩

/-- Claim C4 as amended: no sub-grammar ever verifies that it consumed
attribute_length bytes, and no AttributeLengthMismatch error exists.
First part, covering every dispatch arm whose payload is not the whole
envelope: whenever dispatch succeeds on an envelope, it succeeds with the
same decoded attribute on that envelope extended by any residue -- every
such sub-grammar parses a prefix and silently ignores what follows (the
marker attributes Synthetic and Deprecated read nothing). Second part,
the one remaining arm: SourceDebugExtension takes the entire envelope as
its payload, so for it the consumed bytes trivially equal the declared
length and no residue can exist. -/
theorem c4_residue_ignored :
    (∀ fuel idx info extra pool a,
      pool[idx - 1]? ≠ some (ConstantPool.UTF8 (asciiBytes "SourceDebugExtension")) →
      Attribute.parse fuel idx info pool = DRes.ok a →
      Attribute.parse fuel idx (info ++ extra) pool = DRes.ok a)
    ∧ (∀ fuel idx info pool,
      idx ≠ 0 →
      pool[idx - 1]? = some (ConstantPool.UTF8 (asciiBytes "SourceDebugExtension")) →
      Attribute.parse (fuel + 1) idx info pool
        = if utf8Valid info then DRes.ok (Attribute.SourceDebugExtension info)
          else DRes.panic) := by
  constructor
  · intro fuel idx info extra pool a hne h
    cases fuel with
    | zero => simp [Attribute.parse] at h
    | succ f =>
      by_cases h0 : idx = 0
      · simp [Attribute.parse, h0] at h
      cases hget : pool[idx - 1]? with
      | none => simp [Attribute.parse, h0, hget] at h
      | some e =>
        cases e with
        | UTF8 name =>
          simp only [Attribute.parse, if_neg h0, hget] at h ⊢
          by_cases n1 : name = asciiBytes "ConstantValue"
          · rw [if_pos n1] at h ⊢
            exact discardRest_extends readU16_extends Attribute.ConstantValue h
          rw [if_neg n1] at h ⊢
          by_cases n2 : name = asciiBytes "Code"
          · rw [if_pos n2] at h ⊢
            exact discardRest_extends (code_parse_extends f pool) Attribute.Code h
          rw [if_neg n2] at h ⊢
          by_cases n3 : name = asciiBytes "StackMapTable"
          · rw [if_pos n3] at h ⊢
            exact discardRest_extends stack_map_table_parse_extends Attribute.StackMapTable h
          rw [if_neg n3] at h ⊢
          by_cases n4 : name = asciiBytes "Exceptions"
          · rw [if_pos n4] at h ⊢
            exact discardRest_extends exceptions_parse_extends Attribute.Exceptions h
          rw [if_neg n4] at h ⊢
          by_cases n5 : name = asciiBytes "InnerClasses"
          · rw [if_pos n5] at h ⊢
            exact discardRest_extends inner_classes_parse_extends Attribute.InnerClasses h
          rw [if_neg n5] at h ⊢
          by_cases n6 : name = asciiBytes "EnclosingMethod"
          · rw [if_pos n6] at h ⊢
            exact discardRest_extends enclosing_method_parse_extends Attribute.EnclosingMethod h
          rw [if_neg n6] at h ⊢
          by_cases n7 : name = asciiBytes "Synthetic"
          · rw [if_pos n7] at h ⊢
            exact h
          rw [if_neg n7] at h ⊢
          by_cases n8 : name = asciiBytes "Signature"
          · rw [if_pos n8] at h ⊢
            exact discardRest_extends signature_parse_extends Attribute.Signature h
          rw [if_neg n8] at h ⊢
          by_cases n9 : name = asciiBytes "SourceFile"
          · rw [if_pos n9] at h ⊢
            exact discardRest_extends source_file_parse_extends Attribute.SourceFile h
          rw [if_neg n9] at h ⊢
          by_cases n10 : name = asciiBytes "SourceDebugExtension"
          · rw [n10] at hget
            exact absurd hget hne
          rw [if_neg n10] at h ⊢
          by_cases n11 : name = asciiBytes "LineNumberTable"
          · rw [if_pos n11] at h ⊢
            exact discardRest_extends (pseq_extends readU16_extends fun n =>
                parseCount_extends line_number_parse_extends n) Attribute.LineNumberTable h
          rw [if_neg n11] at h ⊢
          by_cases n12 : name = asciiBytes "LocalVariableTable"
          · rw [if_pos n12] at h ⊢
            exact discardRest_extends (pseq_extends readU16_extends fun n =>
                parseCount_extends local_variable_parse_extends n) Attribute.LocalVariableTable h
          rw [if_neg n12] at h ⊢
          by_cases n13 : name = asciiBytes "LocalVariableTypeTable"
          · rw [if_pos n13] at h ⊢
            exact discardRest_extends (pseq_extends readU16_extends fun n =>
                parseCount_extends local_variable_type_parse_extends n) Attribute.LocalVariableTypeTable h
          rw [if_neg n13] at h ⊢
          by_cases n14 : name = asciiBytes "Deprecated"
          · rw [if_pos n14] at h ⊢
            exact h
          rw [if_neg n14] at h ⊢
          by_cases n15 : name = asciiBytes "RuntimeVisibleAnnotations"
          · rw [if_pos n15] at h ⊢
            exact discardRest_extends (pseq_extends readU16_extends fun n =>
                parseCount_extends (annot_parse_extends f) n) Attribute.RuntimeVisibleAnnotations h
          rw [if_neg n15] at h ⊢
          by_cases n16 : name = asciiBytes "RuntimeInvisibleAnnotations"
          · rw [if_pos n16] at h ⊢
            exact discardRest_extends (pseq_extends readU16_extends fun n =>
                parseCount_extends (annot_parse_extends f) n) Attribute.RuntimeInvisibleAnnotations h
          rw [if_neg n16] at h ⊢
          by_cases n17 : name = asciiBytes "RuntimeVisibleParameterAnnotations"
          · rw [if_pos n17] at h ⊢
            exact discardRest_extends (pseq_extends readU8_extends fun n =>
                parseCount_extends (parameter_annot_parse_extends f) n) Attribute.RuntimeVisibleParameterAnnotations h
          rw [if_neg n17] at h ⊢
          by_cases n18 : name = asciiBytes "RuntimeInvisibleParameterAnnotations"
          · rw [if_pos n18] at h ⊢
            exact discardRest_extends (pseq_extends readU8_extends fun n =>
                parseCount_extends (parameter_annot_parse_extends f) n) Attribute.RuntimeInvisibleParameterAnnotations h
          rw [if_neg n18] at h ⊢
          by_cases n19 : name = asciiBytes "RuntimeVisibleTypeAnnotations"
          · rw [if_pos n19] at h ⊢
            exact discardRest_extends (pseq_extends readU16_extends fun n =>
                parseCount_extends (type_annot_parse_extends f) n) Attribute.RuntimeVisibleTypeAnnotations h
          rw [if_neg n19] at h ⊢
          by_cases n20 : name = asciiBytes "RuntimeInvisibleTypeAnnotations"
          · rw [if_pos n20] at h ⊢
            exact discardRest_extends (pseq_extends readU16_extends fun n =>
                parseCount_extends (type_annot_parse_extends f) n) Attribute.RuntimeInvisibleTypeAnnotations h
          rw [if_neg n20] at h ⊢
          by_cases n21 : name = asciiBytes "AnnotationDefault"
          · rw [if_pos n21] at h ⊢
            exact discardRest_extends (element_value_parse_extends f) Attribute.AnnotationDefault h
          rw [if_neg n21] at h ⊢
          by_cases n22 : name = asciiBytes "BootstrapMethods"
          · rw [if_pos n22] at h ⊢
            exact discardRest_extends (pseq_extends readU16_extends fun n =>
                parseCount_extends bootstrap_method_parse_extends n) Attribute.BootstrapMethods h
          rw [if_neg n22] at h ⊢
          by_cases n23 : name = asciiBytes "MethodParameters"
          · rw [if_pos n23] at h ⊢
            exact discardRest_extends (pseq_extends readU8_extends fun n =>
                parseCount_extends parameter_parse_extends n) Attribute.MethodParameters h
          rw [if_neg n23] at h ⊢
          by_cases n24 : name = asciiBytes "Module"
          · rw [if_pos n24] at h ⊢
            exact discardRest_extends module_attribute_parse_extends Attribute.Module h
          rw [if_neg n24] at h ⊢
          by_cases n25 : name = asciiBytes "ModulePackages"
          · rw [if_pos n25] at h ⊢
            exact discardRest_extends (pseq_extends readU16_extends fun n =>
                parseCount_extends readU16_extends n) Attribute.ModulePackages h
          rw [if_neg n25] at h ⊢
          by_cases n26 : name = asciiBytes "ModuleMainClass"
          · rw [if_pos n26] at h ⊢
            exact discardRest_extends readU16_extends Attribute.ModuleMainClass h
          rw [if_neg n26] at h ⊢
          by_cases n27 : name = asciiBytes "NestHost"
          · rw [if_pos n27] at h ⊢
            exact discardRest_extends readU16_extends Attribute.NestHost h
          rw [if_neg n27] at h ⊢
          by_cases n28 : name = asciiBytes "NestMembers"
          · rw [if_pos n28] at h ⊢
            exact discardRest_extends (pseq_extends readU16_extends fun n =>
                parseCount_extends readU16_extends n) Attribute.NestMembers h
          rw [if_neg n28] at h ⊢
          by_cases n29 : name = asciiBytes "RecordComponentInfo"
          · rw [if_pos n29] at h ⊢
            exact discardRest_extends (pseq_extends readU16_extends fun n =>
                record_components_loop_extends f pool n) Attribute.Record h
          rw [if_neg n29] at h ⊢
          by_cases n30 : name = asciiBytes "PermittedSubclasses"
          · rw [if_pos n30] at h ⊢
            exact discardRest_extends (pseq_extends readU16_extends fun n =>
                parseCount_extends readU16_extends n) Attribute.PermittedSubclasses h
          rw [if_neg n30] at h ⊢
          exact absurd h (by simp)
        | Class x => simp [Attribute.parse, h0, hget] at h
        | FieldRef x y => simp [Attribute.parse, h0, hget] at h
        | MethodRef x y => simp [Attribute.parse, h0, hget] at h
        | InterfaceMethodRef x y => simp [Attribute.parse, h0, hget] at h
        | String x => simp [Attribute.parse, h0, hget] at h
        | Integer x => simp [Attribute.parse, h0, hget] at h
        | Float x => simp [Attribute.parse, h0, hget] at h
        | Long x => simp [Attribute.parse, h0, hget] at h
        | Double x => simp [Attribute.parse, h0, hget] at h
        | NameAndType x y => simp [Attribute.parse, h0, hget] at h
        | MethodHandle x y => simp [Attribute.parse, h0, hget] at h
        | MethodType x => simp [Attribute.parse, h0, hget] at h
        | Dynamic x y => simp [Attribute.parse, h0, hget] at h
        | InvokeDynamic x y => simp [Attribute.parse, h0, hget] at h
        | Module x => simp [Attribute.parse, h0, hget] at h
        | Package x => simp [Attribute.parse, h0, hget] at h
  · intro fuel idx info pool h0 hget
    simp only [Attribute.parse, if_neg h0, hget]
    rw [if_neg (by decide : ¬(asciiBytes "SourceDebugExtension" = asciiBytes "ConstantValue")),
      if_neg (by decide : ¬(asciiBytes "SourceDebugExtension" = asciiBytes "Code")),
      if_neg (by decide : ¬(asciiBytes "SourceDebugExtension" = asciiBytes "StackMapTable")),
      if_neg (by decide : ¬(asciiBytes "SourceDebugExtension" = asciiBytes "Exceptions")),
      if_neg (by decide : ¬(asciiBytes "SourceDebugExtension" = asciiBytes "InnerClasses")),
      if_neg (by decide : ¬(asciiBytes "SourceDebugExtension" = asciiBytes "EnclosingMethod")),
      if_neg (by decide : ¬(asciiBytes "SourceDebugExtension" = asciiBytes "Synthetic")),
      if_neg (by decide : ¬(asciiBytes "SourceDebugExtension" = asciiBytes "Signature")),
      if_neg (by decide : ¬(asciiBytes "SourceDebugExtension" = asciiBytes "SourceFile"))]
    simp only [if_true]

/-- Claim C4, witness for the amended theorem: a ConstantValue envelope
extended by a one-byte residue still dispatches to the same value, and a
SourceDebugExtension envelope takes its whole body as the payload. -/
theorem c4_residue_ignored_witness :
    Attribute.parse 1 1 ([0, 9] ++ [9]) cvPool = DRes.ok (Attribute.ConstantValue 9)
    ∧ Attribute.parse 1 1 [65] sdePool
        = (if utf8Valid [65] then DRes.ok (Attribute.SourceDebugExtension [65])
           else DRes.panic) :=
  ⟨c4_residue_ignored.1 1 1 [0, 9] [9] cvPool (Attribute.ConstantValue 9)
     (by intro hc; simp [cvPool] at hc; exact absurd hc (by decide)) (by rfl),
   c4_residue_ignored.2 0 1 [65] sdePool (by decide) (by rfl)⟩

/-- Claim C5, counterexample. The minimal empty class followed by one
extra byte decodes successfully, returning the extra byte as unconsumed
rest; the claim requires a TrailingBytes failure instead. -/
theorem c5_trailing_byte_counterexample :
    ClassFile.parse_class_file 5 (minimalClassBytes ++ [255])
      = PRes.ok minimalClassFile [255] :=
  rfl

/-- Claim C5 as amended: the top-level decode performs no end-of-input
check and no TrailingBytes error exists: for every successful decode of
any input, extending that input with arbitrary trailing bytes still
succeeds with the identical class file, and the trailing bytes are handed
back to the caller unexamined, appended to the unconsumed rest. -/
theorem c5_trailing_bytes_returned :
    ∀ fuel buf cf rest extra,
      ClassFile.parse_class_file fuel buf = PRes.ok cf rest →
      ClassFile.parse_class_file fuel (buf ++ extra) = PRes.ok cf (rest ++ extra) := by
  intro fuel buf cf rest extra h
  exact class_file_parse_extends fuel buf cf rest extra h

/-- Claim C5, witness for the amended theorem at the minimal empty class
with two trailing bytes. -/
theorem c5_trailing_bytes_returned_witness :
    ClassFile.parse_class_file 5 (minimalClassBytes ++ [0xAB, 0xCD])
      = PRes.ok minimalClassFile ([] ++ [0xAB, 0xCD]) :=
  c5_trailing_bytes_returned 5 minimalClassBytes minimalClassFile [] [0xAB, 0xCD] (by rfl)

/-- Claim C6, counterexample. Each listed failure -- unknown constant
pool tag, unknown verification type tag, unknown element value tag,
unknown type annotation target type, and an attribute name outside the
known table -- aborts the process (the unimplemented macro), which
contradicts the claim that each is returned to the caller as an error
value without aborting. -/
theorem c6_error_taxonomy_counterexample :
    ConstantPool.parse_constant [2] = PRes.panic
    ∧ VerificationTypeInfo.parse [9] = PRes.panic
    ∧ ElementValue.parse 3 [0x41] = PRes.panic
    ∧ TargetInfo.parse [] 0x30 = PRes.panic
    ∧ Attribute.parse 3 1 [] [ConstantPool.UTF8 (asciiBytes "VendorX")] = DRes.panic :=
  ⟨rfl, rfl, rfl, rfl, rfl⟩

/-- Claim C6 as amended: every unknown discriminant -- a constant pool
tag outside the 17-entry table, a verification type tag above 8, an
element value tag outside the ten-entry table, a type annotation target
type outside the JVM table, and an attribute name outside the known
table -- aborts the decode through the unimplemented macro rather than
being returned as an error value; only cursor exhaustion and the magic
mismatch travel back as error values. -/
theorem c6_unknown_discriminants_abort :
    (∀ tag buf, tag ∉ cpKnownTags → ConstantPool.parse_constant (tag :: buf) = PRes.panic)
    ∧ (∀ tag buf, 8 < tag → VerificationTypeInfo.parse (tag :: buf) = PRes.panic)
    ∧ (∀ fuel tag buf, tag ∉ evKnownTags → ElementValue.parse (fuel + 1) (tag :: buf) = PRes.panic)
    ∧ (∀ target_type buf, target_type ∉ targetKnownTypes →
        TargetInfo.parse buf target_type = PRes.panic)
    ∧ (∀ fuel idx info pool name, idx ≠ 0 →
        pool[idx - 1]? = some (ConstantPool.UTF8 name) →
        name ∉ attributeKnownNames →
        Attribute.parse (fuel + 1) idx info pool = DRes.panic) := by
  refine ⟨?_, ?_, ?_, ?_, ?_⟩
  · intro tag buf h
    simp only [cpKnownTags, List.mem_cons, List.not_mem_nil, or_false, not_or] at h
    simp_all [ConstantPool.parse_constant, readU8, pseq]
  · intro tag buf h
    have k0 : tag ≠ 0 := by omega
    have k1 : tag ≠ 1 := by omega
    have k2 : tag ≠ 2 := by omega
    have k3 : tag ≠ 3 := by omega
    have k4 : tag ≠ 4 := by omega
    have k5 : tag ≠ 5 := by omega
    have k6 : tag ≠ 6 := by omega
    have k7 : tag ≠ 7 := by omega
    have k8 : tag ≠ 8 := by omega
    simp [VerificationTypeInfo.parse, readU8, pseq, k0, k1, k2, k3, k4, k5, k6, k7, k8]
  · intro fuel tag buf h
    simp only [evKnownTags, List.mem_cons, List.not_mem_nil, or_false, not_or] at h
    simp_all [ElementValue.parse, readU8, pseq]
  · intro t buf h
    simp only [targetKnownTypes, List.mem_cons, List.not_mem_nil, or_false, not_or] at h
    simp_all [TargetInfo.parse]
  · intro fuel idx info pool name h0 hget h
    simp only [attributeKnownNames, List.mem_cons, List.not_mem_nil, or_false, not_or] at h
    simp_all [Attribute.parse]

/-- Claim C6, witness for the amended theorem, applying each component at
a concrete unknown discriminant. -/
theorem c6_unknown_discriminants_abort_witness :
    ConstantPool.parse_constant [21] = PRes.panic
    ∧ VerificationTypeInfo.parse [10] = PRes.panic
    ∧ ElementValue.parse 1 [0x21] = PRes.panic
    ∧ TargetInfo.parse [] 0x50 = PRes.panic
    ∧ Attribute.parse 1 1 [] [ConstantPool.UTF8 (asciiBytes "VendorY")] = DRes.panic :=
  ⟨c6_unknown_discriminants_abort.1 21 [] (by decide),
   c6_unknown_discriminants_abort.2.1 10 [] (by decide),
   c6_unknown_discriminants_abort.2.2.1 0 0x21 [] (by decide),
   c6_unknown_discriminants_abort.2.2.2.1 0x50 [] (by decide),
   c6_unknown_discriminants_abort.2.2.2.2 0 1 [] [ConstantPool.UTF8 (asciiBytes "VendorY")]
     (asciiBytes "VendorY") (by decide) (by rfl) (by decide)⟩

/-- Claim C7, counterexample. A name index of 0, a name index beyond the
stored table, and a name index reaching a non-UTF8 entry each abort the
process (usize underflow, unwrap of a missing value, and the
unimplemented macro respectively), which contradicts the claim that the
dispatcher returns the IndexOutOfBounds or PoolKindMismatch error values
without aborting. -/
theorem c7_dispatch_lookup_counterexample :
    Attribute.parse 3 0 [] cvPool = DRes.panic
    ∧ Attribute.parse 3 2 [] cvPool = DRes.panic
    ∧ Attribute.parse 3 1 [] [ConstantPool.Integer 0] = DRes.panic :=
  ⟨rfl, rfl, rfl⟩

/-- Claim C7 as amended: during attribute dispatch a name index of 0, a
name index whose stored position lies outside the table, and a name index
reaching a stored entry that is not a UTF8 entry each abort the decode;
no error value is returned and the decode does not succeed. -/
theorem c7_dispatch_lookup_aborts (fuel idx : Nat) (info : Bytes) (pool : List ConstantPool)
    (h : idx = 0 ∨ pool[idx - 1]? = none
         ∨ ∃ e, pool[idx - 1]? = some e ∧ e.isUTF8 = false) :
    Attribute.parse (fuel + 1) idx info pool = DRes.panic := by
  rcases h with h0 | hnone | ⟨e, hsome, hu⟩
  · simp [Attribute.parse, h0]
  · by_cases h0 : idx = 0
    · simp [Attribute.parse, h0]
    · simp [Attribute.parse, h0, hnone]
  · by_cases h0 : idx = 0
    · simp [Attribute.parse, h0]
    · cases e <;> simp_all [Attribute.parse, ConstantPool.isUTF8]

/-- Claim C7, witness for the amended theorem at name index 0. -/
theorem c7_dispatch_lookup_aborts_witness :
    Attribute.parse 1 0 [] [] = DRes.panic :=
  c7_dispatch_lookup_aborts 0 0 [] [] (Or.inl rfl)

/-- Claim C8, counterexample. The single byte 0x00 is not valid Modified
UTF-8 (the NUL must be two-byte encoded), yet the decoder accepts the
UTF8 pool entry carrying it and succeeds, instead of returning the
BadUtf8 error value as the claim requires. -/
theorem c8_modified_utf8_counterexample :
    isValidModifiedUtf8 [0] = false
    ∧ ConstantPool.parse_constant [1, 0, 1, 0] = PRes.ok (ConstantPool.UTF8 [0]) [] :=
  ⟨rfl, rfl⟩

/-- Claim C8 as amended: the decoder validates the length-prefixed bytes
of a UTF8 entry under standard UTF-8 (the Rust from_utf8), not Modified
UTF-8; bytes that fail that check abort the decode through unwrap rather
than producing an error value, and bytes that pass it are accepted even
when they are invalid Modified UTF-8, such as an embedded NUL. -/
theorem c8_utf8_check_is_standard (bs rest : Bytes) :
    ConstantPool.parse_constant ((1 : Nat) :: u16be bs.length ++ bs ++ rest)
      = if utf8Valid bs then PRes.ok (ConstantPool.UTF8 bs) rest else PRes.panic := by
  simp [ConstantPool.parse_constant, readU8]

/-- Claim C9: the Code attribute body reads, in order, a 16-bit
max_stack, a 16-bit max_locals, a 32-bit code_length, exactly that many
opaque code bytes kept verbatim, a 16-bit exception table count followed
by that many records of four 16-bit fields, and a 16-bit attribute count
followed by that many envelopes promoted recursively through the
dispatcher (from_attribute_info); everything after the structure is left
unconsumed. -/
theorem c9_code_attribute_layout (fuel ms ml k : Nat) (cs : Bytes) (excs : List Exception)
    (attrSection rest : Bytes) (infos : List AttributeInfo) (attrs : List Attribute)
    (pool : List ConstantPool)
    (hA : parseCount AttributeInfo.parse k (attrSection ++ rest) = PRes.ok infos rest)
    (hD : Attribute.from_attribute_info fuel infos pool = DRes.ok attrs) :
    Code.parse (fuel + 1)
        (u16be ms ++ u16be ml ++ u32be cs.length ++ cs
          ++ u16be excs.length ++ (excs.map encodeException).flatten
          ++ u16be k ++ attrSection ++ rest) pool
      = PRes.ok (Code.mk ms ml cs.length cs excs.length excs k attrs) rest := by
  simp only [Code.parse, List.append_assoc, pseq_ok, readU16_u16be, readU32_u32be, takeN_exact,
    parseCount_encodeException, hA, hD]

/-- Claim C9, witness at the Code body of the spec scenario: max_stack 2,
max_locals 1, the single return instruction byte, no exceptions and no
nested attributes. -/
theorem c9_code_attribute_layout_witness :
    Code.parse 2
        (u16be 2 ++ u16be 1 ++ u32be ([0xB1] : Bytes).length ++ [0xB1]
          ++ u16be ([] : List Exception).length
          ++ (([] : List Exception).map encodeException).flatten
          ++ u16be 0 ++ [] ++ [])
        []
      = PRes.ok (Code.mk 2 1 1 [0xB1] 0 [] 0 []) [] :=
  c9_code_attribute_layout 1 2 1 0 [0xB1] [] [] [] [] [] [] (by rfl) (by rfl)

/-- Claim C10: in every successfully decoded structure each stored count
field equals the length of the list it describes -- in the class file the
interfaces, fields, methods and attributes counts, and in a Code body the
code length, the exception table length and the nested attributes count
(the constant pool count is excluded). -/
theorem c10_count_fields_match :
    (∀ fuel buf cf rest, ClassFile.parse_class_file fuel buf = PRes.ok cf rest →
      cf.interfaces_count = cf.interfaces.length
      ∧ cf.fields_count = cf.fields.length
      ∧ cf.methods_count = cf.methods.length
      ∧ cf.attributes_count = cf.attributes.length)
    ∧ (∀ fuel buf pool c rest, Code.parse fuel buf pool = PRes.ok c rest →
      c.code_length = c.code.length
      ∧ c.exception_table_length = c.exception_table.length
      ∧ c.attributes_count = c.attributes.length) := by
  constructor
  · intro fuel buf cf rest h
    simp only [ClassFile.parse_class_file] at h
    obtain ⟨_, b1, _, h⟩ := pseq_eq_ok h
    obtain ⟨minor, b2, _, h⟩ := pseq_eq_ok h
    obtain ⟨major, b3, _, h⟩ := pseq_eq_ok h
    obtain ⟨cpc, b4, _, h⟩ := pseq_eq_ok h
    obtain ⟨cpool, b5, _, h⟩ := pseq_eq_ok h
    obtain ⟨af, b6, _, h⟩ := pseq_eq_ok h
    obtain ⟨tc, b7, _, h⟩ := pseq_eq_ok h
    obtain ⟨sc, b8, _, h⟩ := pseq_eq_ok h
    obtain ⟨ic, b9, _, h⟩ := pseq_eq_ok h
    obtain ⟨ifs, b10, hifs, h⟩ := pseq_eq_ok h
    obtain ⟨fc, b11, _, h⟩ := pseq_eq_ok h
    obtain ⟨flds, b12, hflds, h⟩ := pseq_eq_ok h
    obtain ⟨mc, b13, _, h⟩ := pseq_eq_ok h
    obtain ⟨mths, b14, hmths, h⟩ := pseq_eq_ok h
    obtain ⟨ac, b15, _, h⟩ := pseq_eq_ok h
    obtain ⟨ais, b16, hais, h⟩ := pseq_eq_ok h
    cases hfa : Attribute.from_attribute_info fuel ais cpool <;> rw [hfa] at h
    case ok attrs =>
      simp only [PRes.ok.injEq] at h
      obtain ⟨h1, h2⟩ := h
      subst h1
      exact ⟨(parseCount_length hifs).symm, (fields_loop_length hflds).symm,
        (methods_loop_length hmths).symm,
        ((from_attribute_info_length hfa).trans (parseCount_length hais)).symm⟩
    case err => simp at h
    case panic => simp at h
    case outOfFuel => simp at h
  · intro fuel buf pool c rest h
    cases fuel with
    | zero => simp [Code.parse] at h
    | succ f =>
      simp only [Code.parse] at h
      obtain ⟨ms, b1, _, h⟩ := pseq_eq_ok h
      obtain ⟨ml, b2, _, h⟩ := pseq_eq_ok h
      obtain ⟨cl, b3, _, h⟩ := pseq_eq_ok h
      obtain ⟨cs, b4, hcs, h⟩ := pseq_eq_ok h
      obtain ⟨etl, b5, _, h⟩ := pseq_eq_ok h
      obtain ⟨etab, b6, het, h⟩ := pseq_eq_ok h
      obtain ⟨ac, b7, _, h⟩ := pseq_eq_ok h
      obtain ⟨ais, b8, hais, h⟩ := pseq_eq_ok h
      cases hfa : Attribute.from_attribute_info f ais pool <;> rw [hfa] at h
      case ok attrs =>
        simp only [PRes.ok.injEq] at h
        obtain ⟨h1, h2⟩ := h
        subst h1
        exact ⟨(takeN_ok_length hcs).symm, (parseCount_length het).symm,
          ((from_attribute_info_length hfa).trans (parseCount_length hais)).symm⟩
      case err => simp at h
      case panic => simp at h
      case outOfFuel => simp at h

/-- Claim C10, witness at the minimal empty class and at a concrete Code
body. -/
theorem c10_count_fields_match_witness :
    (minimalClassFile.interfaces_count = minimalClassFile.interfaces.length
      ∧ minimalClassFile.fields_count = minimalClassFile.fields.length
      ∧ minimalClassFile.methods_count = minimalClassFile.methods.length
      ∧ minimalClassFile.attributes_count = minimalClassFile.attributes.length)
    ∧ ((Code.mk 2 1 1 [0xB1] 0 [] 0 []).code_length
        = (Code.mk 2 1 1 [0xB1] 0 [] 0 []).code.length
      ∧ (Code.mk 2 1 1 [0xB1] 0 [] 0 []).exception_table_length
        = (Code.mk 2 1 1 [0xB1] 0 [] 0 []).exception_table.length
      ∧ (Code.mk 2 1 1 [0xB1] 0 [] 0 []).attributes_count
        = (Code.mk 2 1 1 [0xB1] 0 [] 0 []).attributes.length) :=
  ⟨c10_count_fields_match.1 5 minimalClassBytes minimalClassFile [] (by rfl),
   c10_count_fields_match.2 2 codeBytesEx [] (Code.mk 2 1 1 [0xB1] 0 [] 0 []) [] (by rfl)⟩
